import Mathlib

/-!
Shallow embedding of the ray-tracer core (tuple algebra, matrix algebra,
ray-sphere intersection) with machine `f32` scalars modelled as real numbers.
Fatal precondition failures (Rust panics) are modelled as `Option.none`
results; degenerate numeric outcomes stay ordinary values, as in the code.
-/

namespace RayTracer

noncomputable section

/-- Embeds `std::f32::EPSILON`, the tolerance used by `util::float_equality`. -/
def EPSILON : ℝ := 1 / 2 ^ 23

/-- Embeds `util::float_equality`: `(a - b).abs() <= std::f32::EPSILON`. -/
def float_equality (a b : ℝ) : Prop := |a - b| ≤ EPSILON

/-- Embeds `tuple::Tuple`: four scalar components `x y z w`. -/
structure Tuple where
  x : ℝ
  y : ℝ
  z : ℝ
  w : ℝ

/-- Embeds `Tuple::point`: `w = 1.0`. -/
def Tuple.point (x y z : ℝ) : Tuple := ⟨x, y, z, 1⟩

/-- Embeds `Tuple::vector`: `w = 0.0`. -/
def Tuple.vector (x y z : ℝ) : Tuple := ⟨x, y, z, 0⟩

/-- Embeds `Tuple::raw`. -/
def Tuple.raw (x y z w : ℝ) : Tuple := ⟨x, y, z, w⟩

/-- Embeds `impl Add for Tuple`. -/
def Tuple.add (a b : Tuple) : Tuple := ⟨a.x + b.x, a.y + b.y, a.z + b.z, a.w + b.w⟩

/-- Embeds `impl Sub for Tuple`. -/
def Tuple.sub (a b : Tuple) : Tuple := ⟨a.x - b.x, a.y - b.y, a.z - b.z, a.w - b.w⟩

/-- Embeds `impl Mul for Tuple` (scalar multiplication). -/
def Tuple.mul (a : Tuple) (s : ℝ) : Tuple := ⟨a.x * s, a.y * s, a.z * s, a.w * s⟩

/-- Embeds `impl Div for Tuple` (scalar division). -/
def Tuple.div (a : Tuple) (s : ℝ) : Tuple := ⟨a.x / s, a.y / s, a.z / s, a.w / s⟩

/-- Embeds `Tuple::dot`. -/
def Tuple.dot (a b : Tuple) : ℝ := a.x * b.x + a.y * b.y + a.z * b.z + a.w * b.w

/-- Embeds `Tuple::magnitude`: square root of the componentwise sum of squares. -/
def Tuple.magnitude (a : Tuple) : ℝ :=
  Real.sqrt (a.x * a.x + a.y * a.y + a.z * a.z + a.w * a.w)

/-- Embeds `Tuple::normalise`: divide every component by the magnitude. -/
def Tuple.normalise (a : Tuple) : Tuple :=
  Tuple.raw (a.x / a.magnitude) (a.y / a.magnitude) (a.z / a.magnitude) (a.w / a.magnitude)

/-- Embeds `impl PartialEq for Tuple`: componentwise epsilon-tolerant equality. -/
def tupleEq (a b : Tuple) : Prop :=
  float_equality a.x b.x ∧ float_equality a.y b.y ∧
  float_equality a.z b.z ∧ float_equality a.w b.w

/-- Embeds `matrix::Matrix`: explicit row and column counts over a row-major
flat buffer of scalars. -/
structure Matrix where
  rows : ℕ
  cols : ℕ
  data : List ℝ

/-- Embeds `Matrix::at` (the bounds assertion is a caller obligation; reads
out of range return the list default, where the code would abort). -/
def Matrix.entry (M : Matrix) (r c : ℕ) : ℝ := M.data.getD (r * M.cols + c) 0

/-- Embeds `Matrix::set_cell`: write the row-major cell `(r, c)`. -/
def Matrix.set_cell (M : Matrix) (r c : ℕ) (v : ℝ) : Matrix :=
  ⟨M.rows, M.cols, M.data.set (r * M.cols + c) v⟩

/-- Embeds `Matrix::new4x4`. -/
def Matrix.new4x4 (a b c d e f g h i j k l m n o p : ℝ) : Matrix :=
  ⟨4, 4, [a, b, c, d, e, f, g, h, i, j, k, l, m, n, o, p]⟩

/-- Embeds `Matrix::new3x3`. -/
def Matrix.new3x3 (a b c d e f g h i : ℝ) : Matrix :=
  ⟨3, 3, [a, b, c, d, e, f, g, h, i]⟩

/-- Embeds `Matrix::new2x2`. -/
def Matrix.new2x2 (a b c d : ℝ) : Matrix :=
  ⟨2, 2, [a, b, c, d]⟩

/-- Embeds `Matrix::has_size`. -/
def Matrix.has_size (M : Matrix) (n : ℕ) : Prop := M.rows = n ∧ M.cols = n

/-- Embeds `Matrix::submatrix`: first erase column `col` from the flat buffer
(index `col + i*cols` adjusted by the `i` removals already done), decrement
`cols`, then erase row `row` by removing `cols` consecutive cells at the fixed
index `row * cols`, and decrement `rows`. -/
def Matrix.submatrix (M : Matrix) (row col : ℕ) : Matrix :=
  let d1 := (List.range M.rows).foldl (fun d i => d.eraseIdx (col + i * M.cols - i)) M.data
  let cols1 := M.cols - 1
  let d2 := (List.range cols1).foldl (fun d _ => d.eraseIdx (row * cols1)) d1
  ⟨M.rows - 1, cols1, d2⟩

/-- Embeds the mutually recursive `Matrix::determinant` / `cofactor` / `minor`
calls, with the recursion depth made explicit as fuel equal to the row count
(each submatrix has exactly one row fewer, so the fuel is never exhausted on
the inputs the program can build). -/
def Matrix.detAux : ℕ → Matrix → ℝ
  | 0, _ => 0
  | fuel + 1, M =>
    if M.rows = 2 ∧ M.cols = 2 then
      M.entry 0 0 * M.entry 1 1 - M.entry 0 1 * M.entry 1 0
    else
      (List.range M.cols).foldl
        (fun det i =>
          det + M.entry 0 i *
            (if (0 + i) % 2 = 0 then Matrix.detAux fuel (M.submatrix 0 i)
             else -Matrix.detAux fuel (M.submatrix 0 i))) 0

/-- Embeds `Matrix::determinant`. -/
def Matrix.determinant (M : Matrix) : ℝ := Matrix.detAux M.rows M

/-- Embeds `Matrix::minor`: determinant of the submatrix. -/
def Matrix.minor (M : Matrix) (row col : ℕ) : ℝ := (M.submatrix row col).determinant

/-- Embeds `Matrix::cofactor`: the minor, negated when `row + col` is odd. -/
def Matrix.cofactor (M : Matrix) (row col : ℕ) : ℝ :=
  if (row + col) % 2 = 0 then M.minor row col else -(M.minor row col)

/-- Embeds `Matrix::invert`. The `assert!(det != 0.0)` abort is modelled as
`none`; otherwise every cell `(c, r)` of a clone of the input is overwritten
with `cofactor(r, c) / det`, cofactors being read from the original matrix. -/
def Matrix.invert (M : Matrix) : Option Matrix :=
  let det := M.determinant
  if det = 0 then none
  else some ((List.range M.rows).foldl
    (fun ret r => (List.range M.cols).foldl
      (fun ret c => ret.set_cell c r (M.cofactor r c / det)) ret) M)

/-- Embeds `Matrix::row` (rows of a 4x4 matrix as tuples). -/
def Matrix.row (M : Matrix) (r : ℕ) : Tuple :=
  Tuple.raw (M.entry r 0) (M.entry r 1) (M.entry r 2) (M.entry r 3)

/-- Embeds `Matrix::col`. -/
def Matrix.col (M : Matrix) (c : ℕ) : Tuple :=
  Tuple.raw (M.entry 0 c) (M.entry 1 c) (M.entry 2 c) (M.entry 3 c)

/-- Embeds `impl Mul<&Matrix> for &Matrix`: every cell `(row, col)` of a clone
of the left operand is overwritten with the dot product of the left row and
the right column (both operands must be 4x4; the assertion is a caller
obligation). -/
def Matrix.matMul (A B : Matrix) : Matrix :=
  (List.range 4).foldl
    (fun ret row => (List.range 4).foldl
      (fun ret col => ret.set_cell row col (Tuple.dot (A.row row) (B.col col))) ret) A

/-- Embeds `impl Mul<&Tuple> for &Matrix`: each component is the dot product
of the tuple with the corresponding matrix row. -/
def Matrix.mulTuple (M : Matrix) (t : Tuple) : Tuple :=
  ⟨Tuple.dot t (M.row 0), Tuple.dot t (M.row 1), Tuple.dot t (M.row 2), Tuple.dot t (M.row 3)⟩

/-- Embeds `Matrix::identity`. -/
def Matrix.identity : Matrix :=
  Matrix.new4x4 1 0 0 0 0 1 0 0 0 0 1 0 0 0 0 1

/-- Embeds `Matrix::translation`: identity with cells `(0,3) (1,3) (2,3)` set. -/
def Matrix.translation (x y z : ℝ) : Matrix :=
  ((Matrix.identity.set_cell 0 3 x).set_cell 1 3 y).set_cell 2 3 z

/-- Embeds `Matrix::scaling`: identity with the diagonal cells set. -/
def Matrix.scaling (x y z : ℝ) : Matrix :=
  ((Matrix.identity.set_cell 0 0 x).set_cell 1 1 y).set_cell 2 2 z

/-- Embeds `Matrix::rotation_x`. -/
def Matrix.rotation_x (rad : ℝ) : Matrix :=
  (((Matrix.identity.set_cell 1 1 (Real.cos rad)).set_cell 2 1 (Real.sin rad)).set_cell
      1 2 (-Real.sin rad)).set_cell 2 2 (Real.cos rad)

/-- Embeds `Matrix::rotation_y`. -/
def Matrix.rotation_y (rad : ℝ) : Matrix :=
  (((Matrix.identity.set_cell 0 0 (Real.cos rad)).set_cell 0 2 (Real.sin rad)).set_cell
      2 0 (-Real.sin rad)).set_cell 2 2 (Real.cos rad)

/-- Embeds `Matrix::rotation_z`. -/
def Matrix.rotation_z (rad : ℝ) : Matrix :=
  (((Matrix.identity.set_cell 0 0 (Real.cos rad)).set_cell 0 1 (-Real.sin rad)).set_cell
      1 0 (Real.sin rad)).set_cell 1 1 (Real.cos rad)

/-- Embeds the fluent `Matrix::translate`: left-multiplies a translation. -/
def Matrix.translate (M : Matrix) (x y z : ℝ) : Matrix :=
  Matrix.matMul (Matrix.translation x y z) M

/-- Embeds the fluent `Matrix::scale`. -/
def Matrix.scale (M : Matrix) (x y z : ℝ) : Matrix :=
  Matrix.matMul (Matrix.scaling x y z) M

/-- Embeds the fluent `Matrix::rotate_x`. -/
def Matrix.rotate_x (M : Matrix) (radians : ℝ) : Matrix :=
  Matrix.matMul (Matrix.rotation_x radians) M

/-- Embeds the fluent `Matrix::rotate_y`. -/
def Matrix.rotate_y (M : Matrix) (radians : ℝ) : Matrix :=
  Matrix.matMul (Matrix.rotation_y radians) M

/-- Embeds the fluent `Matrix::rotate_z`. -/
def Matrix.rotate_z (M : Matrix) (radians : ℝ) : Matrix :=
  Matrix.matMul (Matrix.rotation_z radians) M

/-- Embeds `impl PartialEq for Matrix`: equal shape and componentwise
epsilon-tolerant equality of the flat buffers. -/
def matrixEq (A B : Matrix) : Prop :=
  A.rows = B.rows ∧ A.cols = B.cols ∧
  ∀ i < A.data.length, float_equality (A.data.getD i 0) (B.data.getD i 0)

end

end RayTracer

namespace RayTracer

noncomputable section

/-- Modelled from the spec: the `Ray` type is used by `sphere.rs` via
`crate::Ray`, but its defining source file is missing from the tree; the spec
describes it as an origin point plus a direction vector. -/
structure Ray where
  origin : Tuple
  direction : Tuple

/-- Modelled from the spec: `Ray.transform(M)` returns a new Ray with origin
`M * origin` and direction `M * direction`. -/
def Ray.transform (r : Ray) (M : Matrix) : Ray :=
  ⟨M.mulTuple r.origin, M.mulTuple r.direction⟩

/-- Embeds `sphere::Sphere`: an identity token and a transform matrix. -/
structure Sphere where
  id : ℕ
  transform : Matrix

/-- Embeds `sphere::Intersection`: a parametric distance `t` and the hit
sphere (the Rust non-owning reference is modelled by value). -/
structure Intersection where
  t : ℝ
  object : Sphere

/-- Embeds `Intersection::new`. -/
def Intersection.new (t : ℝ) (object : Sphere) : Intersection := ⟨t, object⟩

/-- Embeds `Sphere::intersect`: inverse-transform the incoming ray (the
invert abort propagates as `none`), solve the quadratic on the transformed
ray, return no intersections for a negative discriminant and otherwise the
two roots in formula order, each carrying the sphere. -/
def Sphere.intersect (s : Sphere) (orig_ray : Ray) : Option (List Intersection) :=
  (s.transform.invert).map (fun inv =>
    let ray := orig_ray.transform inv
    let sphere_to_ray := ray.origin.sub (Tuple.point 0 0 0)
    let a := Tuple.dot ray.direction ray.direction
    let b := 2 * Tuple.dot ray.direction sphere_to_ray
    let c := Tuple.dot sphere_to_ray sphere_to_ray - 1
    let discriminant := b * b - 4 * a * c
    if discriminant < 0 then []
    else [Intersection.new ((-b - Real.sqrt discriminant) / (2 * a)) s,
      Intersection.new ((-b + Real.sqrt discriminant) / (2 * a)) s])

/-- Embeds the free function `hit`: keep the intersections with `t >= 0`,
then reduce with `min_by`, which keeps the earlier element unless the later
one compares strictly smaller; `none` when nothing survives the filter. -/
def hit (intersections : List Intersection) : Option Intersection :=
  (intersections.filter (fun i => decide (0 ≤ i.t))).foldl
    (fun acc i =>
      match acc with
      | none => some i
      | some m => if m.t > i.t then some i else some m) none

/-- Embeds the thread-local `NEXT_ID_COUNTER`: a counter per thread id, each
thread's counter starting at zero as `Cell::new(0)` does. -/
def CounterState : Type := ℕ → ℕ

/-- Embeds `Sphere::new` executed on thread `tid`: the sphere receives the
thread's current counter value as its id and the identity transform, and the
thread's counter is stored back incremented, wrapping as a `u32` does. -/
def Sphere.new (tid : ℕ) (st : CounterState) : Sphere × CounterState :=
  (⟨st tid, Matrix.identity⟩, fun t => if t = tid then (st tid + 1) % 2 ^ 32 else st t)

/-- Runs `Sphere::new` a given number of times on one thread, collecting the
constructed spheres in order. -/
def spheresFrom (tid : ℕ) (st : CounterState) : ℕ → List Sphere × CounterState
  | 0 => ([], st)
  | k + 1 =>
    let r := Sphere.new tid st
    let rest := spheresFrom tid r.2 k
    (r.1 :: rest.1, rest.2)

/-- Embeds the derived `PartialEq` on `Sphere`: equal ids and matrix equality
of the transforms. -/
def sphereEq (s1 s2 : Sphere) : Prop :=
  s1.id = s2.id ∧ matrixEq s1.transform s2.transform

/-- Models an `f32` as a real number or NaN (`none`); only comparison
behaviour is needed to embed `hit` faithfully in the presence of NaN. -/
abbrev FVal : Type := Option ℝ

/-- Models the `f32` comparison `t >= 0.0`: false whenever `t` is NaN. -/
def fge0 : FVal → Bool
  | none => false
  | some v => decide (0 ≤ v)

/-- Models `partial_cmp` on `f32`: incomparable (`none`) when either side is
NaN, otherwise the usual total comparison. -/
def pcmpF : FVal → FVal → Option Ordering
  | some a, some b =>
    some (if a < b then Ordering.lt else if b < a then Ordering.gt else Ordering.eq)
  | _, _ => none

/-- An intersection whose `t` may be NaN. -/
structure IntersectionF where
  t : FVal
  object : Sphere

/-- Models the `min_by` reduction inside `hit` over possibly-NaN values, the
`unwrap` panic of an incomparable pair made explicit as an outer `none`. -/
def minByF : Option IntersectionF → List IntersectionF → Option (Option IntersectionF)
  | acc, [] => some acc
  | none, i :: rest => minByF (some i) rest
  | some m, i :: rest =>
    match pcmpF m.t i.t with
    | none => none
    | some Ordering.gt => minByF (some i) rest
    | some _ => minByF (some m) rest

/-- Models `hit` on possibly-NaN intersections: filter by `t >= 0.0`, then
`min_by`; an outer `none` would be a panic. -/
def hitF (intersections : List IntersectionF) : Option (Option IntersectionF) :=
  minByF none (intersections.filter (fun i => fge0 i.t))

/-- States the specified outcome of `Sphere::intersect` for a given inverse
of the sphere's transform: with the quadratic coefficients computed on the
inverse-transformed ray, a negative discriminant yields no intersections,
otherwise exactly the two formula roots in order, each tagged with the
sphere, the first root at most the second; a zero discriminant makes the two
roots equal (two equal intersections, never one). -/
def intersectOutcome (s : Sphere) (orig_ray : Ray) (inv : Matrix) : Prop :=
  let ray := orig_ray.transform inv
  let sphere_to_ray := ray.origin.sub (Tuple.point 0 0 0)
  let a := Tuple.dot ray.direction ray.direction
  let b := 2 * Tuple.dot ray.direction sphere_to_ray
  let c := Tuple.dot sphere_to_ray sphere_to_ray - 1
  let discriminant := b * b - 4 * a * c
  (discriminant < 0 → s.intersect orig_ray = some []) ∧
    (0 ≤ discriminant →
      s.intersect orig_ray =
        some [Intersection.new ((-b - Real.sqrt discriminant) / (2 * a)) s,
          Intersection.new ((-b + Real.sqrt discriminant) / (2 * a)) s] ∧
        (-b - Real.sqrt discriminant) / (2 * a) ≤
          (-b + Real.sqrt discriminant) / (2 * a)) ∧
    (discriminant = 0 →
      (-b - Real.sqrt discriminant) / (2 * a) =
        (-b + Real.sqrt discriminant) / (2 * a))

end

lemma EPSILON_nonneg : (0:ℝ) ≤ EPSILON := by norm_num [EPSILON]

lemma float_equality_refl (a : ℝ) : float_equality a a := by
  simp [float_equality, EPSILON_nonneg]

lemma tupleEq_of_eq {a b : Tuple} (h : a = b) : tupleEq a b := by
  subst h
  exact ⟨float_equality_refl _, float_equality_refl _, float_equality_refl _,
    float_equality_refl _⟩

lemma sum_sq_pos_of_ne_zero {v : Tuple} (hv : v ≠ ⟨0, 0, 0, 0⟩) :
    0 < v.x * v.x + v.y * v.y + v.z * v.z + v.w * v.w := by
  rcases v with ⟨x, y, z, w⟩
  simp only
  have hnn : (0:ℝ) ≤ x * x + y * y + z * z + w * w := by
    nlinarith [mul_self_nonneg x, mul_self_nonneg y, mul_self_nonneg z, mul_self_nonneg w]
  rcases lt_or_eq_of_le hnn with h | h
  · exact h
  · exfalso
    apply hv
    have hx : x = 0 := by nlinarith [mul_self_nonneg x, mul_self_nonneg y, mul_self_nonneg z, mul_self_nonneg w]
    have hy : y = 0 := by nlinarith [mul_self_nonneg x, mul_self_nonneg y, mul_self_nonneg z, mul_self_nonneg w]
    have hz : z = 0 := by nlinarith [mul_self_nonneg x, mul_self_nonneg y, mul_self_nonneg z, mul_self_nonneg w]
    have hw : w = 0 := by nlinarith [mul_self_nonneg x, mul_self_nonneg y, mul_self_nonneg z, mul_self_nonneg w]
    simp [hx, hy, hz, hw]

/-- C7: for all tuples `a`, `b` the difference `(a + b) - b` equals `a` under
the epsilon-tolerant tuple equality, and for every scalar `s` that is not zero
the quotient `(a * s) / s` equals `a` under the same equality. -/
theorem claim_C7 (a b : Tuple) (s : ℝ) (hs : s ≠ 0) :
    tupleEq ((a.add b).sub b) a ∧ tupleEq ((a.mul s).div s) a := by
  constructor
  · apply tupleEq_of_eq
    rcases a with ⟨ax, ay, az, aw⟩
    rcases b with ⟨bx, by', bz, bw⟩
    simp [Tuple.add, Tuple.sub]
  · apply tupleEq_of_eq
    rcases a with ⟨ax, ay, az, aw⟩
    simp [Tuple.mul, Tuple.div, mul_div_assoc, div_self hs]

/-- Witness for C7 at a concrete input. -/
theorem claim_C7_witness :
    (2:ℝ) ≠ 0 ∧
      (tupleEq (((Tuple.raw 1 2 3 4).add (Tuple.raw 5 6 7 8)).sub (Tuple.raw 5 6 7 8))
          (Tuple.raw 1 2 3 4) ∧
        tupleEq (((Tuple.raw 1 2 3 4).mul 2).div 2) (Tuple.raw 1 2 3 4)) :=
  ⟨by norm_num, claim_C7 (Tuple.raw 1 2 3 4) (Tuple.raw 5 6 7 8) 2 (by norm_num)⟩

/-- C8: normalising a nonzero tuple yields a tuple of magnitude exactly one,
where the magnitude is the square root of the sum of the squares of all four
components and normalisation divides each component by the magnitude. -/
theorem claim_C8 (v : Tuple) (hv : v ≠ ⟨0, 0, 0, 0⟩) :
    v.normalise.magnitude = 1 := by
  have hs : 0 < v.x * v.x + v.y * v.y + v.z * v.z + v.w * v.w := sum_sq_pos_of_ne_zero hv
  have hmm : v.magnitude * v.magnitude = v.x * v.x + v.y * v.y + v.z * v.z + v.w * v.w :=
    Real.mul_self_sqrt hs.le
  have hm : 0 < v.magnitude := Real.sqrt_pos.mpr hs
  have hne : v.magnitude ≠ 0 := ne_of_gt hm
  rw [show v.normalise.magnitude =
      Real.sqrt (v.x / v.magnitude * (v.x / v.magnitude) +
        v.y / v.magnitude * (v.y / v.magnitude) +
        v.z / v.magnitude * (v.z / v.magnitude) +
        v.w / v.magnitude * (v.w / v.magnitude)) from rfl]
  rw [show v.x / v.magnitude * (v.x / v.magnitude) +
        v.y / v.magnitude * (v.y / v.magnitude) +
        v.z / v.magnitude * (v.z / v.magnitude) +
        v.w / v.magnitude * (v.w / v.magnitude) = 1 by
    field_simp
    nlinarith [hmm]]
  exact Real.sqrt_one

/-- Witness for C8 at a concrete input. -/
theorem claim_C8_witness :
    Tuple.vector 1 2 2 ≠ (⟨0, 0, 0, 0⟩ : Tuple) ∧
      (Tuple.vector 1 2 2).normalise.magnitude = 1 := by
  have h : Tuple.vector 1 2 2 ≠ (⟨0, 0, 0, 0⟩ : Tuple) := by
    intro heq
    have := congrArg Tuple.x heq
    norm_num [Tuple.vector] at this
  exact ⟨h, claim_C8 (Tuple.vector 1 2 2) h⟩

end RayTracer

namespace RayTracer

lemma det2_new2x2 (a b c d : ℝ) : (Matrix.new2x2 a b c d).determinant = a * d - b * c := rfl

lemma det3_new3x3 (a b c d e f g h i : ℝ) :
    (Matrix.new3x3 a b c d e f g h i).determinant =
      a * (e * i - f * h) - b * (d * i - f * g) + c * (d * h - e * g) := by
  show (0 + a * (e * i - f * h) + b * -(d * i - f * g) + c * (d * h - e * g) : ℝ) = _
  ring

lemma det4_new4x4 (a b c d e f g h i j k l m n o p : ℝ) :
    (Matrix.new4x4 a b c d e f g h i j k l m n o p).determinant =
      a * (f * (k * p - l * o) - g * (j * p - l * n) + h * (j * o - k * n)) - b * (e * (k * p - l * o) - g * (i * p - l * m) + h * (i * o - k * m)) + c * (e * (j * p - l * n) - f * (i * p - l * m) + h * (i * n - j * m)) - d * (e * (j * o - k * n) - f * (i * o - k * m) + g * (i * n - j * m)) := by
  have h0 : (Matrix.new4x4 a b c d e f g h i j k l m n o p).determinant =
      0 + a * (Matrix.new3x3 f g h j k l n o p).determinant + b * -(Matrix.new3x3 e g h i k l m o p).determinant + c * (Matrix.new3x3 e f h i j l m n p).determinant + d * -(Matrix.new3x3 e f g i j k m n o).determinant := rfl
  rw [h0, det3_new3x3, det3_new3x3, det3_new3x3, det3_new3x3]
  ring

lemma cof4_00 (a b c d e f g h i j k l m n o p : ℝ) :
    (Matrix.new4x4 a b c d e f g h i j k l m n o p).cofactor 0 0 = (f * (k * p - l * o) - g * (j * p - l * n) + h * (j * o - k * n)) := by
  have h0 : (Matrix.new4x4 a b c d e f g h i j k l m n o p).cofactor 0 0 = (Matrix.new3x3 f g h j k l n o p).determinant := rfl
  rw [h0, det3_new3x3]

lemma cof4_01 (a b c d e f g h i j k l m n o p : ℝ) :
    (Matrix.new4x4 a b c d e f g h i j k l m n o p).cofactor 0 1 = -(e * (k * p - l * o) - g * (i * p - l * m) + h * (i * o - k * m)) := by
  have h0 : (Matrix.new4x4 a b c d e f g h i j k l m n o p).cofactor 0 1 = -((Matrix.new3x3 e g h i k l m o p).determinant) := rfl
  rw [h0, det3_new3x3]

lemma cof4_02 (a b c d e f g h i j k l m n o p : ℝ) :
    (Matrix.new4x4 a b c d e f g h i j k l m n o p).cofactor 0 2 = (e * (j * p - l * n) - f * (i * p - l * m) + h * (i * n - j * m)) := by
  have h0 : (Matrix.new4x4 a b c d e f g h i j k l m n o p).cofactor 0 2 = (Matrix.new3x3 e f h i j l m n p).determinant := rfl
  rw [h0, det3_new3x3]

lemma cof4_03 (a b c d e f g h i j k l m n o p : ℝ) :
    (Matrix.new4x4 a b c d e f g h i j k l m n o p).cofactor 0 3 = -(e * (j * o - k * n) - f * (i * o - k * m) + g * (i * n - j * m)) := by
  have h0 : (Matrix.new4x4 a b c d e f g h i j k l m n o p).cofactor 0 3 = -((Matrix.new3x3 e f g i j k m n o).determinant) := rfl
  rw [h0, det3_new3x3]

lemma cof4_10 (a b c d e f g h i j k l m n o p : ℝ) :
    (Matrix.new4x4 a b c d e f g h i j k l m n o p).cofactor 1 0 = -(b * (k * p - l * o) - c * (j * p - l * n) + d * (j * o - k * n)) := by
  have h0 : (Matrix.new4x4 a b c d e f g h i j k l m n o p).cofactor 1 0 = -((Matrix.new3x3 b c d j k l n o p).determinant) := rfl
  rw [h0, det3_new3x3]

lemma cof4_11 (a b c d e f g h i j k l m n o p : ℝ) :
    (Matrix.new4x4 a b c d e f g h i j k l m n o p).cofactor 1 1 = (a * (k * p - l * o) - c * (i * p - l * m) + d * (i * o - k * m)) := by
  have h0 : (Matrix.new4x4 a b c d e f g h i j k l m n o p).cofactor 1 1 = (Matrix.new3x3 a c d i k l m o p).determinant := rfl
  rw [h0, det3_new3x3]

lemma cof4_12 (a b c d e f g h i j k l m n o p : ℝ) :
    (Matrix.new4x4 a b c d e f g h i j k l m n o p).cofactor 1 2 = -(a * (j * p - l * n) - b * (i * p - l * m) + d * (i * n - j * m)) := by
  have h0 : (Matrix.new4x4 a b c d e f g h i j k l m n o p).cofactor 1 2 = -((Matrix.new3x3 a b d i j l m n p).determinant) := rfl
  rw [h0, det3_new3x3]

lemma cof4_13 (a b c d e f g h i j k l m n o p : ℝ) :
    (Matrix.new4x4 a b c d e f g h i j k l m n o p).cofactor 1 3 = (a * (j * o - k * n) - b * (i * o - k * m) + c * (i * n - j * m)) := by
  have h0 : (Matrix.new4x4 a b c d e f g h i j k l m n o p).cofactor 1 3 = (Matrix.new3x3 a b c i j k m n o).determinant := rfl
  rw [h0, det3_new3x3]

lemma cof4_20 (a b c d e f g h i j k l m n o p : ℝ) :
    (Matrix.new4x4 a b c d e f g h i j k l m n o p).cofactor 2 0 = (b * (g * p - h * o) - c * (f * p - h * n) + d * (f * o - g * n)) := by
  have h0 : (Matrix.new4x4 a b c d e f g h i j k l m n o p).cofactor 2 0 = (Matrix.new3x3 b c d f g h n o p).determinant := rfl
  rw [h0, det3_new3x3]

lemma cof4_21 (a b c d e f g h i j k l m n o p : ℝ) :
    (Matrix.new4x4 a b c d e f g h i j k l m n o p).cofactor 2 1 = -(a * (g * p - h * o) - c * (e * p - h * m) + d * (e * o - g * m)) := by
  have h0 : (Matrix.new4x4 a b c d e f g h i j k l m n o p).cofactor 2 1 = -((Matrix.new3x3 a c d e g h m o p).determinant) := rfl
  rw [h0, det3_new3x3]

lemma cof4_22 (a b c d e f g h i j k l m n o p : ℝ) :
    (Matrix.new4x4 a b c d e f g h i j k l m n o p).cofactor 2 2 = (a * (f * p - h * n) - b * (e * p - h * m) + d * (e * n - f * m)) := by
  have h0 : (Matrix.new4x4 a b c d e f g h i j k l m n o p).cofactor 2 2 = (Matrix.new3x3 a b d e f h m n p).determinant := rfl
  rw [h0, det3_new3x3]

lemma cof4_23 (a b c d e f g h i j k l m n o p : ℝ) :
    (Matrix.new4x4 a b c d e f g h i j k l m n o p).cofactor 2 3 = -(a * (f * o - g * n) - b * (e * o - g * m) + c * (e * n - f * m)) := by
  have h0 : (Matrix.new4x4 a b c d e f g h i j k l m n o p).cofactor 2 3 = -((Matrix.new3x3 a b c e f g m n o).determinant) := rfl
  rw [h0, det3_new3x3]

lemma cof4_30 (a b c d e f g h i j k l m n o p : ℝ) :
    (Matrix.new4x4 a b c d e f g h i j k l m n o p).cofactor 3 0 = -(b * (g * l - h * k) - c * (f * l - h * j) + d * (f * k - g * j)) := by
  have h0 : (Matrix.new4x4 a b c d e f g h i j k l m n o p).cofactor 3 0 = -((Matrix.new3x3 b c d f g h j k l).determinant) := rfl
  rw [h0, det3_new3x3]

lemma cof4_31 (a b c d e f g h i j k l m n o p : ℝ) :
    (Matrix.new4x4 a b c d e f g h i j k l m n o p).cofactor 3 1 = (a * (g * l - h * k) - c * (e * l - h * i) + d * (e * k - g * i)) := by
  have h0 : (Matrix.new4x4 a b c d e f g h i j k l m n o p).cofactor 3 1 = (Matrix.new3x3 a c d e g h i k l).determinant := rfl
  rw [h0, det3_new3x3]

lemma cof4_32 (a b c d e f g h i j k l m n o p : ℝ) :
    (Matrix.new4x4 a b c d e f g h i j k l m n o p).cofactor 3 2 = -(a * (f * l - h * j) - b * (e * l - h * i) + d * (e * j - f * i)) := by
  have h0 : (Matrix.new4x4 a b c d e f g h i j k l m n o p).cofactor 3 2 = -((Matrix.new3x3 a b d e f h i j l).determinant) := rfl
  rw [h0, det3_new3x3]

lemma cof4_33 (a b c d e f g h i j k l m n o p : ℝ) :
    (Matrix.new4x4 a b c d e f g h i j k l m n o p).cofactor 3 3 = (a * (f * k - g * j) - b * (e * k - g * i) + c * (e * j - f * i)) := by
  have h0 : (Matrix.new4x4 a b c d e f g h i j k l m n o p).cofactor 3 3 = (Matrix.new3x3 a b c e f g i j k).determinant := rfl
  rw [h0, det3_new3x3]

end RayTracer

namespace RayTracer

lemma set_cell_mk (rows cols : ℕ) (l : List ℝ) (r c : ℕ) (v : ℝ) :
    (⟨rows, cols, l⟩ : Matrix).set_cell r c v = ⟨rows, cols, l.set (r * cols + c) v⟩ := rfl

lemma matMul_unroll (A B : Matrix) :
    Matrix.matMul A B =
      ((((((((((((((((A).set_cell 0 0 (Tuple.dot (A.row 0) (B.col 0))).set_cell 0 1 (Tuple.dot (A.row 0) (B.col 1))).set_cell 0 2 (Tuple.dot (A.row 0) (B.col 2))).set_cell 0 3 (Tuple.dot (A.row 0) (B.col 3))).set_cell 1 0 (Tuple.dot (A.row 1) (B.col 0))).set_cell 1 1 (Tuple.dot (A.row 1) (B.col 1))).set_cell 1 2 (Tuple.dot (A.row 1) (B.col 2))).set_cell 1 3 (Tuple.dot (A.row 1) (B.col 3))).set_cell 2 0 (Tuple.dot (A.row 2) (B.col 0))).set_cell 2 1 (Tuple.dot (A.row 2) (B.col 1))).set_cell 2 2 (Tuple.dot (A.row 2) (B.col 2))).set_cell 2 3 (Tuple.dot (A.row 2) (B.col 3))).set_cell 3 0 (Tuple.dot (A.row 3) (B.col 0))).set_cell 3 1 (Tuple.dot (A.row 3) (B.col 1))).set_cell 3 2 (Tuple.dot (A.row 3) (B.col 2))).set_cell 3 3 (Tuple.dot (A.row 3) (B.col 3)) := rfl

lemma matMul_new4x4 (a b c d e f g h i j k l m n o p A B C D E F G H I J K L M N O P : ℝ) :
    Matrix.matMul (Matrix.new4x4 a b c d e f g h i j k l m n o p) (Matrix.new4x4 A B C D E F G H I J K L M N O P) =
      Matrix.new4x4
        (a * A + b * E + c * I + d * M)
        (a * B + b * F + c * J + d * N)
        (a * C + b * G + c * K + d * O)
        (a * D + b * H + c * L + d * P)
        (e * A + f * E + g * I + h * M)
        (e * B + f * F + g * J + h * N)
        (e * C + f * G + g * K + h * O)
        (e * D + f * H + g * L + h * P)
        (i * A + j * E + k * I + l * M)
        (i * B + j * F + k * J + l * N)
        (i * C + j * G + k * K + l * O)
        (i * D + j * H + k * L + l * P)
        (m * A + n * E + o * I + p * M)
        (m * B + n * F + o * J + p * N)
        (m * C + n * G + o * K + p * O)
        (m * D + n * H + o * L + p * P) := by
  rw [matMul_unroll]
  simp only [Matrix.new4x4, set_cell_mk]
  norm_num [List.set]
  simp [Matrix.row, Matrix.col, Matrix.entry, Tuple.dot, Tuple.raw]

lemma mulTuple_new4x4 (a b c d e f g h i j k l m n o p X Y Z W : ℝ) :
    (Matrix.new4x4 a b c d e f g h i j k l m n o p).mulTuple (Tuple.raw X Y Z W) =
      Tuple.raw
        (X * a + Y * b + Z * c + W * d)
        (X * e + Y * f + Z * g + W * h)
        (X * i + Y * j + Z * k + W * l)
        (X * m + Y * n + Z * o + W * p) := rfl

lemma translation_new4x4 (x y z : ℝ) :
    Matrix.translation x y z = Matrix.new4x4 1 0 0 x 0 1 0 y 0 0 1 z 0 0 0 1 := rfl

lemma scaling_new4x4 (x y z : ℝ) :
    Matrix.scaling x y z = Matrix.new4x4 x 0 0 0 0 y 0 0 0 0 z 0 0 0 0 1 := rfl

lemma rotation_x_new4x4 (r : ℝ) :
    Matrix.rotation_x r = Matrix.new4x4 1 0 0 0
      0 (Real.cos r) (-Real.sin r) 0
      0 (Real.sin r) (Real.cos r) 0
      0 0 0 1 := rfl

lemma rotation_y_new4x4 (r : ℝ) :
    Matrix.rotation_y r = Matrix.new4x4 (Real.cos r) 0 (Real.sin r) 0
      0 1 0 0
      (-Real.sin r) 0 (Real.cos r) 0
      0 0 0 1 := rfl

lemma rotation_z_new4x4 (r : ℝ) :
    Matrix.rotation_z r = Matrix.new4x4 (Real.cos r) (-Real.sin r) 0 0
      (Real.sin r) (Real.cos r) 0 0
      0 0 1 0
      0 0 0 1 := rfl

lemma identity_new4x4 : Matrix.identity = Matrix.new4x4 1 0 0 0 0 1 0 0 0 0 1 0 0 0 0 1 := rfl

end RayTracer

namespace RayTracer

/-- C10: on any 2x2 matrix, every minor and every cofactor evaluates to zero,
because the determinant of the 1x1 submatrix goes through the cofactor
expansion branch whose recursive 0x0 determinant contributes a zero factor. -/
theorem claim_C10 (M : Matrix) (hr : M.rows = 2) (hc : M.cols = 2)
    (r c : ℕ) (hrlt : r < 2) (hclt : c < 2) :
    M.minor r c = 0 ∧ M.cofactor r c = 0 := by
  have hrows : (M.submatrix r c).rows = 1 := by simp [Matrix.submatrix, hr]
  have hcols : (M.submatrix r c).cols = 1 := by simp [Matrix.submatrix, hc]
  have hm : M.minor r c = 0 := by
    unfold Matrix.minor Matrix.determinant
    rw [hrows]
    simp [Matrix.detAux, hrows, hcols, List.range_succ]
  exact ⟨hm, by simp [Matrix.cofactor, hm]⟩

/-- Witness for C10 at a concrete input. -/
theorem claim_C10_witness :
    ((Matrix.new2x2 1 2 3 4).rows = 2 ∧ (Matrix.new2x2 1 2 3 4).cols = 2 ∧
        (0:ℕ) < 2 ∧ (1:ℕ) < 2) ∧
      (Matrix.new2x2 1 2 3 4).minor 0 1 = 0 ∧ (Matrix.new2x2 1 2 3 4).cofactor 0 1 = 0 :=
  ⟨⟨rfl, rfl, by norm_num, by norm_num⟩,
    claim_C10 (Matrix.new2x2 1 2 3 4) rfl rfl 0 1 (by norm_num) (by norm_num)⟩


end RayTracer

namespace RayTracer

lemma getD_set_ne (l : List ℝ) (i k : ℕ) (v : ℝ) (h : i ≠ k) :
    (l.set i v).getD k 0 = l.getD k 0 := by
  simp [List.getD_eq_getElem?_getD, List.getElem?_set_ne h]

lemma getD_set_self (l : List ℝ) (i : ℕ) (v : ℝ) (h : i < l.length) :
    (l.set i v).getD i 0 = v := by
  simp [List.getD_eq_getElem?_getD, List.getElem?_set_self, h]

lemma foldl_flatMap_eq {α β γ : Type} (l1 : List α) (h : α → List β) (g : γ → β → γ)
    (init : γ) :
    (l1.flatMap h).foldl g init = l1.foldl (fun acc a => (h a).foldl g acc) init := by
  induction l1 generalizing init with
  | nil => rfl
  | cons a rest ih => simp [List.foldl_append, ih]

lemma foldl_set_length {σ : Type} (ps : List σ) (idx : σ → ℕ) (v : σ → ℝ) (d : List ℝ) :
    (ps.foldl (fun d q => d.set (idx q) (v q)) d).length = d.length := by
  induction ps generalizing d with
  | nil => rfl
  | cons q rest ih => simp [ih, List.length_set]

lemma foldl_set_getD_of_forall_ne {σ : Type} (ps : List σ) (idx : σ → ℕ) (v : σ → ℝ)
    (d : List ℝ) (k : ℕ) (h : ∀ q ∈ ps, idx q ≠ k) :
    (ps.foldl (fun d q => d.set (idx q) (v q)) d).getD k 0 = d.getD k 0 := by
  induction ps generalizing d with
  | nil => rfl
  | cons q rest ih =>
    rw [List.foldl_cons, ih _ fun q hq => h q (List.mem_cons_of_mem _ hq),
      getD_set_ne _ _ _ _ (h q (List.mem_cons_self q rest))]

lemma foldl_set_getD_of_mem {σ : Type} (ps : List σ) (idx : σ → ℕ) (v : σ → ℝ)
    (p0 : σ) (hmem : p0 ∈ ps) (huniq : ∀ q ∈ ps, idx q = idx p0 → q = p0)
    (d : List ℝ) (hb : idx p0 < d.length) :
    (ps.foldl (fun d q => d.set (idx q) (v q)) d).getD (idx p0) 0 = v p0 := by
  induction ps generalizing d with
  | nil => simp at hmem
  | cons q rest ih =>
    rw [List.foldl_cons]
    by_cases hq : p0 ∈ rest
    · exact ih hq (fun q' hq' h' => huniq q' (List.mem_cons_of_mem _ hq') h') _
        (by simpa [List.length_set] using hb)
    · have hpq : p0 = q := by
        rcases List.mem_cons.mp hmem with h' | h'
        · exact h'
        · exact absurd h' hq
      subst hpq
      rw [foldl_set_getD_of_forall_ne]
      · exact getD_set_self _ _ _ hb
      · intro q' hq' hbad
        exact hq (huniq q' (List.mem_cons_of_mem _ hq') hbad ▸ hq')

lemma foldl_set_cell_eq (ps : List (ℕ × ℕ)) (f : ℕ × ℕ → ℝ) (M : Matrix) :
    ps.foldl (fun A q => A.set_cell q.2 q.1 (f q)) M
      = ⟨M.rows, M.cols, ps.foldl (fun d q => d.set (q.2 * M.cols + q.1) (f q)) M.data⟩ := by
  induction ps generalizing M with
  | nil => rfl
  | cons q rest ih => rw [List.foldl_cons, ih]; rfl

lemma pair_idx_inj {n r c r0 c0 : ℕ} (hr : r < n) (hr0 : r0 < n)
    (h : c * n + r = c0 * n + r0) : r = r0 ∧ c = c0 := by
  have hn : 0 < n := lt_of_le_of_lt (Nat.zero_le r) hr
  constructor
  · have h1 : (c * n + r) % n = r := by
      rw [Nat.mul_comm c n, Nat.mul_add_mod, Nat.mod_eq_of_lt hr]
    have h2 : (c0 * n + r0) % n = r0 := by
      rw [Nat.mul_comm c0 n, Nat.mul_add_mod, Nat.mod_eq_of_lt hr0]
    rw [← h1, ← h2, h]
  · have h1 : (c * n + r) / n = c := by
      rw [Nat.mul_comm c n, Nat.mul_add_div hn, Nat.div_eq_of_lt hr, Nat.add_zero]
    have h2 : (c0 * n + r0) / n = c0 := by
      rw [Nat.mul_comm c0 n, Nat.mul_add_div hn, Nat.div_eq_of_lt hr0, Nat.add_zero]
    rw [← h1, ← h2, h]

lemma pair_idx_lt {n r c : ℕ} (hr : r < n) (hc : c < n) : c * n + r < n * n :=
  calc c * n + r < c * n + n := by omega
  _ = (c + 1) * n := by ring
  _ ≤ n * n := Nat.mul_le_mul_right n (Nat.succ_le_of_lt hc)

lemma invert_eq_ite (M : Matrix) :
    M.invert = if M.determinant = 0 then none
      else some ((List.range M.rows).foldl
        (fun ret r => (List.range M.cols).foldl
          (fun ret c => ret.set_cell c r (M.cofactor r c / M.determinant)) ret) M) := rfl

lemma invert_of_det_zero {M : Matrix} (h : M.determinant = 0) : M.invert = none := by
  rw [invert_eq_ite, if_pos h]

lemma invert_spec (M : Matrix) (n : ℕ) (hr : M.rows = n) (hc : M.cols = n)
    (hlen : M.data.length = n * n) (hdet : M.determinant ≠ 0) :
    ∃ N, M.invert = some N ∧ N.rows = n ∧ N.cols = n ∧ N.data.length = n * n ∧
      ∀ r < n, ∀ c < n, N.entry c r = M.cofactor r c / M.determinant := by
  have hflat :
      (List.range n).foldl
          (fun ret r => (List.range n).foldl
            (fun ret c => ret.set_cell c r (M.cofactor r c / M.determinant)) ret) M
        = ((List.range n).flatMap (fun r => (List.range n).map (fun c => (r, c)))).foldl
            (fun A q => A.set_cell q.2 q.1 (M.cofactor q.1 q.2 / M.determinant)) M := by
    rw [foldl_flatMap_eq]
    simp only [List.foldl_map]
  set ps := (List.range n).flatMap (fun r => (List.range n).map (fun c => (r, c))) with hps
  refine ⟨⟨M.rows, M.cols,
    ps.foldl (fun d q => d.set (q.2 * M.cols + q.1) (M.cofactor q.1 q.2 / M.determinant)) M.data⟩,
    ?_, by rw [hr], by rw [hc], ?_, ?_⟩
  · rw [invert_eq_ite, if_neg hdet, hr, hc, hflat, foldl_set_cell_eq, hr, hc]
  · show (ps.foldl (fun d q => d.set (q.2 * M.cols + q.1)
        (M.cofactor q.1 q.2 / M.determinant)) M.data).length = n * n
    rw [foldl_set_length, hlen]
  · intro r hrn c hcn
    have hmem : (r, c) ∈ ps := by
      rw [hps]
      refine List.mem_flatMap.mpr ⟨r, List.mem_range.mpr hrn, ?_⟩
      exact List.mem_map.mpr ⟨c, List.mem_range.mpr hcn, rfl⟩
    have huniq : ∀ q ∈ ps, q.2 * M.cols + q.1 = c * M.cols + r → q = (r, c) := by
      intro q hqmem hqidx
      rw [hps] at hqmem
      rcases List.mem_flatMap.mp hqmem with ⟨r', hr', hq'⟩
      rcases List.mem_map.mp hq' with ⟨c', hc', rfl⟩
      have hr'lt : r' < n := List.mem_range.mp hr'
      have hc'lt : c' < n := List.mem_range.mp hc'
      rw [hc] at hqidx
      have hqidx' : c' * n + r' = c * n + r := hqidx
      obtain ⟨he1, he2⟩ := pair_idx_inj hr'lt hrn hqidx'
      simp [he1, he2]
    have hb : c * M.cols + r < M.data.length := by
      rw [hc, hlen]; exact pair_idx_lt hrn hcn
    have := foldl_set_getD_of_mem ps (fun q => q.2 * M.cols + q.1)
      (fun q => M.cofactor q.1 q.2 / M.determinant) (r, c) hmem huniq M.data hb
    simpa [Matrix.entry, hc] using this

/-- C4: inverting a matrix whose determinant is zero fatally aborts, and for a
square matrix with nonzero determinant the returned matrix stores, at each
cell `(c, r)`, the cofactor at `(r, c)` of the original matrix divided by the
original determinant (the transpose is folded into the write position). -/
theorem claim_C4 (M : Matrix) (n : ℕ) (hr : M.rows = n) (hc : M.cols = n)
    (hlen : M.data.length = n * n) :
    (M.determinant = 0 → M.invert = none) ∧
      (M.determinant ≠ 0 →
        ∃ N, M.invert = some N ∧ N.rows = n ∧ N.cols = n ∧
          ∀ r < n, ∀ c < n, N.entry c r = M.cofactor r c / M.determinant) := by
  refine ⟨fun h => invert_of_det_zero h, fun hdet => ?_⟩
  obtain ⟨N, h1, h2, h3, _, h5⟩ := invert_spec M n hr hc hlen hdet
  exact ⟨N, h1, h2, h3, h5⟩

/-- Witness for C4 at a concrete input. -/
theorem claim_C4_witness :
    ((Matrix.new2x2 1 2 3 4).rows = 2 ∧ (Matrix.new2x2 1 2 3 4).cols = 2 ∧
        (Matrix.new2x2 1 2 3 4).data.length = 2 * 2) ∧
      (((Matrix.new2x2 1 2 3 4).determinant = 0 → (Matrix.new2x2 1 2 3 4).invert = none) ∧
        ((Matrix.new2x2 1 2 3 4).determinant ≠ 0 →
          ∃ N, (Matrix.new2x2 1 2 3 4).invert = some N ∧ N.rows = 2 ∧ N.cols = 2 ∧
            ∀ r < 2, ∀ c < 2,
              N.entry c r = (Matrix.new2x2 1 2 3 4).cofactor r c /
                (Matrix.new2x2 1 2 3 4).determinant)) :=
  ⟨⟨rfl, rfl, rfl⟩, claim_C4 (Matrix.new2x2 1 2 3 4) 2 rfl rfl rfl⟩

end RayTracer

namespace RayTracer

lemma exists_chunks (m w : ℕ) : ∀ d : List ℝ, d.length = m * w →
    ∃ L : List (List ℝ), d = L.flatten ∧ L.length = m ∧ ∀ row ∈ L, row.length = w := by
  induction m with
  | zero =>
    intro d hd
    refine ⟨[], ?_, rfl, by simp⟩
    simpa using List.length_eq_zero.mp (by simpa using hd)
  | succ m ih =>
    intro d hd
    obtain ⟨L, hflat, hlen, hrows⟩ := ih (d.drop w)
      (by rw [List.length_drop, hd, Nat.succ_mul]; omega)
    refine ⟨d.take w :: L, ?_, by simp [hlen], ?_⟩
    · simp [← hflat]
    · intro row hrow
      rcases List.mem_cons.mp hrow with h | h
      · subst h
        rw [List.length_take]
        have : w ≤ d.length := by rw [hd, Nat.succ_mul]; omega
        omega
      · exact hrows row h

lemma foldl_eraseIdx_shift (idxs : List ℕ) (f : ℕ → ℕ) (pre : List ℝ)
    (h : ∀ i ∈ idxs, pre.length ≤ f i) : ∀ d : List ℝ,
    idxs.foldl (fun d i => d.eraseIdx (f i)) (pre ++ d)
      = pre ++ idxs.foldl (fun d i => d.eraseIdx (f i - pre.length)) d := by
  induction idxs with
  | nil => intro d; rfl
  | cons i rest ih =>
    intro d
    rw [List.foldl_cons, List.foldl_cons,
      List.eraseIdx_append_of_length_le (h i (List.mem_cons_self i rest)),
      ih (fun j hj => h j (List.mem_cons_of_mem _ hj))]

lemma eraseCol_flatten (col w : ℕ) (hcol : col < w) : ∀ L : List (List ℝ),
    (∀ row ∈ L, row.length = w) →
    (List.range L.length).foldl (fun d i => d.eraseIdx (col + i * w - i)) L.flatten
      = (L.map (fun row => row.eraseIdx col)).flatten := by
  intro L
  induction L with
  | nil => intro _; rfl
  | cons row rest ih =>
    intro hw
    have hrow : row.length = w := hw row (List.mem_cons_self _ _)
    rw [List.length_cons, List.range_succ_eq_map, List.foldl_cons, List.foldl_map]
    have h0 : (List.flatten (row :: rest)).eraseIdx (col + 0 * w - 0)
        = row.eraseIdx col ++ rest.flatten := by
      rw [show col + 0 * w - 0 = col by omega, List.flatten_cons,
        List.eraseIdx_append_of_lt_length (by omega)]
    rw [h0]
    have hpre : (row.eraseIdx col).length = w - 1 := by
      rw [List.length_eraseIdx, hrow, if_pos hcol]
    have hbound : ∀ i ∈ List.range rest.length,
        (row.eraseIdx col).length ≤ col + Nat.succ i * w - Nat.succ i := by
      intro i _
      have hiw : i ≤ i * w := Nat.le_mul_of_pos_right i (by omega)
      rw [hpre, Nat.succ_mul]
      omega
    rw [foldl_eraseIdx_shift _ _ _ hbound]
    have harith : ∀ i : ℕ, col + Nat.succ i * w - Nat.succ i - (row.eraseIdx col).length
        = col + i * w - i := by
      intro i
      have hiw : i ≤ i * w := Nat.le_mul_of_pos_right i (by omega)
      rw [hpre, Nat.succ_mul]
      omega
    simp only [harith]
    rw [ih (fun r hr => hw r (List.mem_cons_of_mem _ hr)), List.map_cons, List.flatten_cons]

lemma foldl_const_iterate (f : List ℝ → List ℝ) (k : ℕ) : ∀ l : List ℝ,
    (List.range k).foldl (fun d _ => f d) l = f^[k] l := by
  induction k with
  | zero => intro l; rfl
  | succ k ih =>
    intro l
    rw [List.range_succ, List.foldl_append, ih, List.foldl_cons, List.foldl_nil,
      Function.iterate_succ_apply']

lemma iterate_eraseIdx_zero (k : ℕ) : ∀ l : List ℝ,
    (fun d : List ℝ => d.eraseIdx 0)^[k] l = l.drop k := by
  induction k with
  | zero => intro l; simp
  | succ k ih =>
    intro l
    rw [Function.iterate_succ_apply, ih]
    cases l with
    | nil => simp [List.eraseIdx]
    | cons a rest => simp [List.eraseIdx]

lemma eraseRow_flatten (w : ℕ) : ∀ (L : List (List ℝ)) (row : ℕ),
    (∀ r ∈ L, r.length = w) → row < L.length →
    (List.range w).foldl (fun d _ => d.eraseIdx (row * w)) L.flatten
      = (L.eraseIdx row).flatten := by
  intro L
  induction L with
  | nil => intro row _ hrow; simp at hrow
  | cons r0 rest ih =>
    intro row hw hrow
    cases row with
    | zero =>
      have hr0 : r0.length = w := hw r0 (List.mem_cons_self _ _)
      rw [show (0 * w) = 0 by omega]
      rw [foldl_const_iterate (fun d => d.eraseIdx 0), iterate_eraseIdx_zero,
        List.flatten_cons, ← hr0, List.drop_left]
      rfl
    | succ row' =>
      have hr0 : r0.length = w := hw r0 (List.mem_cons_self _ _)
      rw [List.flatten_cons]
      have hb : ∀ i ∈ List.range w, r0.length ≤ Nat.succ row' * w := by
        intro i _
        rw [hr0, Nat.succ_mul]
        omega
      rw [foldl_eraseIdx_shift (List.range w) (fun _ => Nat.succ row' * w) r0 hb]
      have harith : Nat.succ row' * w - r0.length = row' * w := by
        rw [hr0, Nat.succ_mul]; omega
      simp only [harith]
      rw [ih row' (fun r hr => hw r (List.mem_cons_of_mem _ hr))
        (by simpa using Nat.lt_of_succ_lt_succ hrow)]
      rw [List.eraseIdx_cons_succ, List.flatten_cons]

lemma flatten_getD (w : ℕ) : ∀ (L : List (List ℝ)) (i j : ℕ),
    (∀ r ∈ L, r.length = w) → i < L.length → j < w →
    L.flatten.getD (i * w + j) 0 = (L.getD i []).getD j 0 := by
  intro L
  induction L with
  | nil => intro i j _ hi _; simp at hi
  | cons r0 rest ih =>
    intro i j hw hi hj
    have hr0 : r0.length = w := hw r0 (List.mem_cons_self _ _)
    cases i with
    | zero =>
      rw [show (0 * w + j) = j by omega, List.flatten_cons]
      rw [List.getD_eq_getElem?_getD, List.getElem?_append_left (by omega),
        ← List.getD_eq_getElem?_getD]
      rfl
    | succ i' =>
      rw [List.flatten_cons, List.getD_eq_getElem?_getD,
        List.getElem?_append_right (by rw [hr0, Nat.succ_mul]; omega)]
      have harith : Nat.succ i' * w + j - r0.length = i' * w + j := by
        rw [hr0, Nat.succ_mul]; omega
      rw [harith, ← List.getD_eq_getElem?_getD,
        ih i' j (fun r hr => hw r (List.mem_cons_of_mem _ hr))
          (by simpa using Nat.lt_of_succ_lt_succ hi) hj]
      rfl

end RayTracer

namespace RayTracer

lemma submatrix_def (M : Matrix) (row col : ℕ) :
    M.submatrix row col =
      ⟨M.rows - 1, M.cols - 1,
        (List.range (M.cols - 1)).foldl (fun d _ => d.eraseIdx (row * (M.cols - 1)))
          ((List.range M.rows).foldl (fun d i => d.eraseIdx (col + i * M.cols - i)) M.data)⟩ :=
  rfl

lemma submatrix_eq_flatten (M : Matrix) (n row col : ℕ) (hr : M.rows = n) (hc : M.cols = n)
    (hrow : row < n) (hcol : col < n) (L : List (List ℝ)) (hflat : M.data = L.flatten)
    (hL : L.length = n) (hw : ∀ r ∈ L, r.length = n) :
    M.submatrix row col =
      ⟨n - 1, n - 1, ((L.map (fun r => r.eraseIdx col)).eraseIdx row).flatten⟩ := by
  have hcolerase := eraseCol_flatten col n hcol L hw
  rw [hL] at hcolerase
  have hw' : ∀ r ∈ L.map (fun r => r.eraseIdx col), r.length = n - 1 := by
    intro r hrmem
    rcases List.mem_map.mp hrmem with ⟨r0, hr0, rfl⟩
    rw [List.length_eraseIdx, hw r0 hr0, if_pos hcol]
  have hLc : (L.map (fun r => r.eraseIdx col)).length = n := by
    rw [List.length_map, hL]
  have hrowerase := eraseRow_flatten (n - 1) (L.map (fun r => r.eraseIdx col)) row hw'
    (by rw [hLc]; exact hrow)
  rw [submatrix_def, hr, hc, hflat, hcolerase, hrowerase]

/-- C5: the submatrix obtained by deleting row `r` and column `c` of an
`n x n` matrix has shape `(n-1) x (n-1)`, and its cell `(i, j)` equals the
original cell at row `i` (shifted past `r` when `i ≥ r`) and column `j`
(shifted past `c` when `j ≥ c`), with no double-shifted indices. -/
theorem claim_C5 (M : Matrix) (n : ℕ) (h2 : 2 ≤ n) (hr : M.rows = n) (hc : M.cols = n)
    (hlen : M.data.length = n * n) (r c : ℕ) (hrn : r < n) (hcn : c < n) :
    (M.submatrix r c).rows = n - 1 ∧ (M.submatrix r c).cols = n - 1 ∧
      ∀ i j, i < n - 1 → j < n - 1 →
        (M.submatrix r c).entry i j =
          M.entry (if i < r then i else i + 1) (if j < c then j else j + 1) := by
  obtain ⟨L, hflat, hL, hw⟩ := exists_chunks n n M.data hlen
  have hsub := submatrix_eq_flatten M n r c hr hc hrn hcn L hflat hL hw
  refine ⟨by rw [hsub], by rw [hsub], ?_⟩
  intro i j hi hj
  set Lc := L.map (fun row => row.eraseIdx c) with hLcdef
  have hw' : ∀ row ∈ Lc, row.length = n - 1 := by
    intro row hrmem
    rcases List.mem_map.mp hrmem with ⟨r0, hr0, rfl⟩
    rw [List.length_eraseIdx, hw r0 hr0, if_pos hcn]
  have hLclen : Lc.length = n := by rw [hLcdef, List.length_map, hL]
  have hw'' : ∀ row ∈ Lc.eraseIdx r, row.length = n - 1 := fun row hrow =>
    hw' row (List.mem_of_mem_eraseIdx hrow)
  have hLc'len : (Lc.eraseIdx r).length = n - 1 := by
    rw [List.length_eraseIdx, hLclen, if_pos hrn]
  -- left side
  have hleft : (M.submatrix r c).entry i j = ((Lc.eraseIdx r).getD i []).getD j 0 := by
    rw [hsub]
    show ((Lc.eraseIdx r).flatten).getD (i * (n - 1) + j) 0 = _
    exact flatten_getD (n - 1) (Lc.eraseIdx r) i j hw'' (by rw [hLc'len]; exact hi) hj
  -- peel the row erasure
  have hrowsel : (Lc.eraseIdx r).getD i [] = Lc.getD (if i < r then i else i + 1) [] := by
    by_cases hir : i < r
    · rw [if_pos hir]
      rw [List.getD_eq_getElem?_getD, List.getD_eq_getElem?_getD,
        List.getElem?_eraseIdx_of_lt _ _ _ hir]
    · rw [if_neg hir]
      rw [List.getD_eq_getElem?_getD, List.getD_eq_getElem?_getD,
        List.getElem?_eraseIdx_of_ge _ _ _ (Nat.le_of_not_lt hir)]
  -- peel the map
  have hmapsel : ∀ k, k < n →
      Lc.getD k [] = (L.getD k []).eraseIdx c := by
    intro k hk
    rw [hLcdef, List.getD_eq_getElem?_getD, List.getD_eq_getElem?_getD, List.getElem?_map]
    rcases List.getElem?_eq_some_iff.mpr ⟨by rw [hL]; exact hk, rfl⟩ with h
    cases hLk : L[k]? with
    | none =>
      rw [List.getElem?_eq_none_iff] at hLk
      rw [hL] at hLk
      omega
    | some row => rfl
  -- peel the column erasure
  have hcolsel : ∀ row : List ℝ,
      (row.eraseIdx c).getD j 0 = row.getD (if j < c then j else j + 1) 0 := by
    intro row
    by_cases hjc : j < c
    · rw [if_pos hjc]
      rw [List.getD_eq_getElem?_getD, List.getD_eq_getElem?_getD,
        List.getElem?_eraseIdx_of_lt _ _ _ hjc]
    · rw [if_neg hjc]
      rw [List.getD_eq_getElem?_getD, List.getD_eq_getElem?_getD,
        List.getElem?_eraseIdx_of_ge _ _ _ (Nat.le_of_not_lt hjc)]
  -- right side
  have hi' : (if i < r then i else i + 1) < n := by
    by_cases hir : i < r
    · rw [if_pos hir]; omega
    · rw [if_neg hir]; omega
  have hj' : (if j < c then j else j + 1) < n := by
    by_cases hjc : j < c
    · rw [if_pos hjc]; omega
    · rw [if_neg hjc]; omega
  have hright : M.entry (if i < r then i else i + 1) (if j < c then j else j + 1)
      = (L.getD (if i < r then i else i + 1) []).getD (if j < c then j else j + 1) 0 := by
    show M.data.getD ((if i < r then i else i + 1) * M.cols + (if j < c then j else j + 1)) 0 = _
    rw [hc, hflat]
    exact flatten_getD n L _ _ hw (by rw [hL]; exact hi') hj'
  rw [hleft, hrowsel, hmapsel _ hi', hcolsel, hright]

/-- Witness for C5 at a concrete input. -/
theorem claim_C5_witness :
    ((2 ≤ 3 ∧ (Matrix.new3x3 1 2 3 4 5 6 7 8 9).rows = 3 ∧
        (Matrix.new3x3 1 2 3 4 5 6 7 8 9).cols = 3 ∧
        (Matrix.new3x3 1 2 3 4 5 6 7 8 9).data.length = 3 * 3 ∧ 1 < 3 ∧ 2 < 3) ∧
      ((Matrix.new3x3 1 2 3 4 5 6 7 8 9).submatrix 1 2).rows = 3 - 1 ∧
        ((Matrix.new3x3 1 2 3 4 5 6 7 8 9).submatrix 1 2).cols = 3 - 1 ∧
        ∀ i j, i < 3 - 1 → j < 3 - 1 →
          ((Matrix.new3x3 1 2 3 4 5 6 7 8 9).submatrix 1 2).entry i j =
            (Matrix.new3x3 1 2 3 4 5 6 7 8 9).entry (if i < 1 then i else i + 1)
              (if j < 2 then j else j + 1)) :=
  ⟨⟨by norm_num, rfl, rfl, rfl, by norm_num, by norm_num⟩,
    claim_C5 (Matrix.new3x3 1 2 3 4 5 6 7 8 9) 3 (by norm_num) rfl rfl rfl 1 2
      (by norm_num) (by norm_num)⟩

end RayTracer

namespace RayTracer

lemma minfold_some (fl : List Intersection) : ∀ m : Intersection,
    ∃ i, fl.foldl
        (fun acc i =>
          match acc with
          | none => some i
          | some m => if m.t > i.t then some i else some m) (some m) = some i ∧
      (i = m ∨ i ∈ fl) ∧ i.t ≤ m.t ∧ ∀ j ∈ fl, i.t ≤ j.t := by
  induction fl with
  | nil => exact fun m => ⟨m, rfl, Or.inl rfl, le_refl _, by simp⟩
  | cons j rest ih =>
    intro m
    rw [List.foldl_cons]
    by_cases hmj : m.t > j.t
    · rw [show (match some m with
          | none => some j
          | some m => if m.t > j.t then some j else some m) = some j by
        simp [hmj]]
      obtain ⟨i, hfold, hmem, hle, hall⟩ := ih j
      refine ⟨i, hfold, ?_, le_trans hle (le_of_lt hmj), ?_⟩
      · rcases hmem with h | h
        · exact Or.inr (h ▸ List.mem_cons_self j rest)
        · exact Or.inr (List.mem_cons_of_mem _ h)
      · intro j' hj'
        rcases List.mem_cons.mp hj' with h | h
        · exact h ▸ hle
        · exact hall j' h
    · rw [show (match some m with
          | none => some j
          | some m => if m.t > j.t then some j else some m) = some m by
        simp [hmj]]
      obtain ⟨i, hfold, hmem, hle, hall⟩ := ih m
      refine ⟨i, hfold, ?_, hle, ?_⟩
      · rcases hmem with h' | h'
        · exact Or.inl h'
        · exact Or.inr (List.mem_cons_of_mem _ h')
      · intro j' hj'
        rcases List.mem_cons.mp hj' with h | h
        · exact h ▸ le_trans hle (le_of_not_lt hmj)
        · exact hall j' h

lemma hit_eq_none_iff (l : List Intersection) :
    hit l = none ↔ l.filter (fun i => decide (0 ≤ i.t)) = [] := by
  unfold hit
  cases hfl : l.filter (fun i => decide (0 ≤ i.t)) with
  | nil => simp
  | cons j rest =>
    rw [List.foldl_cons]
    obtain ⟨i, hfold, _, _, _⟩ := minfold_some rest j
    rw [show (match (none : Option Intersection) with
        | none => some j
        | some m => if m.t > j.t then some j else some m) = some j from rfl, hfold]
    simp

lemma hit_some_spec (l : List Intersection) (i : Intersection) (h : hit l = some i) :
    i ∈ l ∧ 0 ≤ i.t ∧ ∀ j ∈ l, 0 ≤ j.t → i.t ≤ j.t := by
  unfold hit at h
  cases hfl : l.filter (fun i => decide (0 ≤ i.t)) with
  | nil => rw [hfl] at h; simp at h
  | cons j rest =>
    rw [hfl, List.foldl_cons,
      show (match (none : Option Intersection) with
        | none => some j
        | some m => if m.t > j.t then some j else some m) = some j from rfl] at h
    obtain ⟨i', hfold, hmem, hle, hall⟩ := minfold_some rest j
    rw [hfold] at h
    rw [← Option.some.inj h]
    have himem : i' ∈ l.filter (fun k => decide (0 ≤ k.t)) := by
      rw [hfl]
      rcases hmem with h' | h'
      · exact h' ▸ List.mem_cons_self j rest
      · exact List.mem_cons_of_mem _ h'
    have hfilter := List.mem_filter.mp himem
    refine ⟨hfilter.1, by simpa using hfilter.2, ?_⟩
    intro j' hj' hj't
    have hj'mem : j' ∈ l.filter (fun k => decide (0 ≤ k.t)) :=
      List.mem_filter.mpr ⟨hj', by simpa using hj't⟩
    rw [hfl] at hj'mem
    rcases List.mem_cons.mp hj'mem with h' | h'
    · exact h' ▸ hle
    · exact hall j' h'

/-- C2: `hit` returns an intersection of minimal `t` among those with
nonnegative `t`, and returns no hit exactly when the collection is empty or
every intersection has negative `t`; over `t = 5, 7, -1, 2` it returns the
`t = 2` intersection and over `t = -2, -1` it returns none. -/
theorem claim_C2 (l : List Intersection) (s : Sphere) :
    (∀ i, hit l = some i → i ∈ l ∧ 0 ≤ i.t ∧ ∀ j ∈ l, 0 ≤ j.t → i.t ≤ j.t) ∧
      (hit l = none ↔ ∀ j ∈ l, j.t < 0) ∧
      hit [Intersection.new 5 s, Intersection.new 7 s, Intersection.new (-1) s,
        Intersection.new 2 s] = some (Intersection.new 2 s) ∧
      hit [Intersection.new (-2) s, Intersection.new (-1) s] = none := by
  refine ⟨fun i h => hit_some_spec l i h, ?_, ?_, ?_⟩
  · rw [hit_eq_none_iff, List.filter_eq_nil]
    constructor
    · intro h j hj
      have := h j hj
      simpa using this
    · intro h j hj
      simpa using h j hj
  · norm_num [hit, List.filter, Intersection.new]
  · norm_num [hit, List.filter, Intersection.new]

end RayTracer

namespace RayTracer

lemma fge0_true_iff (x : FVal) : fge0 x = true ↔ ∃ v, x = some v ∧ 0 ≤ v := by
  cases x with
  | none => simp [fge0]
  | some v => simp [fge0]

lemma fge0_false_iff (x : FVal) :
    fge0 x = false ↔ x = none ∨ ∃ v, x = some v ∧ v < 0 := by
  cases x with
  | none => simp [fge0]
  | some v => simp [fge0]

lemma pcmpF_some (a b : ℝ) : ∃ o, pcmpF (some a) (some b) = some o := by
  exact ⟨_, rfl⟩

lemma minByF_no_panic (fl : List IntersectionF) :
    ∀ acc : Option IntersectionF, (∀ m, acc = some m → fge0 m.t = true) →
    (∀ i ∈ fl, fge0 i.t = true) →
    ∃ r, minByF acc fl = some r ∧ (r = none ↔ acc = none ∧ fl = []) := by
  induction fl with
  | nil =>
    intro acc _ _
    cases acc with
    | none => exact ⟨none, rfl, by simp [minByF]⟩
    | some m => exact ⟨some m, rfl, by simp [minByF]⟩
  | cons i rest ih =>
    intro acc hacc hall
    have hi : fge0 i.t = true := hall i (List.mem_cons_self _ _)
    have hrest : ∀ j ∈ rest, fge0 j.t = true :=
      fun j hj => hall j (List.mem_cons_of_mem _ hj)
    cases acc with
    | none =>
      obtain ⟨r, hr, hiff⟩ := ih (some i) (fun m hm => (Option.some.inj hm) ▸ hi) hrest
      rw [show minByF none (i :: rest) = minByF (some i) rest from rfl]
      exact ⟨r, hr, by simp [hiff]⟩
    | some m =>
      have hm : fge0 m.t = true := hacc m rfl
      obtain ⟨vm, hvm, _⟩ := (fge0_true_iff _).mp hm
      obtain ⟨vi, hvi, _⟩ := (fge0_true_iff _).mp hi
      have hcmp : pcmpF m.t i.t =
          some (if vm < vi then Ordering.lt else if vi < vm then Ordering.gt
            else Ordering.eq) := by
        rw [hvm, hvi]
        rfl
      rw [show minByF (some m) (i :: rest) =
          (match pcmpF m.t i.t with
            | none => none
            | some Ordering.gt => minByF (some i) rest
            | some _ => minByF (some m) rest) from rfl, hcmp]
      by_cases h1 : vm < vi
      · obtain ⟨r, hr, hiff⟩ := ih (some m) (fun m' hm' => (Option.some.inj hm') ▸ hm) hrest
        simp only [if_pos h1]
        exact ⟨r, hr, by simp [hiff]⟩
      · by_cases h2 : vi < vm
        · obtain ⟨r, hr, hiff⟩ := ih (some i) (fun m' hm' => (Option.some.inj hm') ▸ hi) hrest
          simp only [if_neg h1, if_pos h2]
          exact ⟨r, hr, by simp [hiff]⟩
        · obtain ⟨r, hr, hiff⟩ := ih (some m) (fun m' hm' => (Option.some.inj hm') ▸ hm) hrest
          simp only [if_neg h1, if_neg h2]
          exact ⟨r, hr, by simp [hiff]⟩

/-- C9: `hit` never panics: even when some intersections carry a NaN `t`,
those fail the `t >= 0` filter exactly like negative ones, so the `unwrap`
inside `min_by` never sees an incomparable pair; the result is no hit exactly
when every intersection's `t` is NaN or negative. -/
theorem claim_C9 (l : List IntersectionF) :
    ∃ r, hitF l = some r ∧
      (r = none ↔ ∀ i ∈ l, i.t = none ∨ ∃ v, i.t = some v ∧ v < 0) := by
  have hfl : ∀ i ∈ l.filter (fun i => fge0 i.t), fge0 i.t = true :=
    fun i hi => (List.mem_filter.mp hi).2
  obtain ⟨r, hr, hiff⟩ := minByF_no_panic (l.filter (fun i => fge0 i.t)) none
    (by simp) hfl
  refine ⟨r, hr, ?_⟩
  rw [hiff]
  simp only [true_and]
  rw [List.filter_eq_nil]
  constructor
  · intro h i hi
    exact (fge0_false_iff _).mp (by simpa using h i hi)
  · intro h i hi
    simpa using (fge0_false_iff _).mpr (h i hi)

lemma matrixEq_refl (M : Matrix) : matrixEq M M :=
  ⟨rfl, rfl, fun _ _ => float_equality_refl _⟩

/-- Counterexample to C6 as stated: with the thread-local counter, a sphere
constructed on thread 0 and a sphere then constructed on thread 1 receive the
same identity token and compare equal under the derived sphere equality. -/
theorem claim_C6_counterexample :
    (Sphere.new 0 (fun _ => 0)).1.id = (Sphere.new 1 (Sphere.new 0 (fun _ => 0)).2).1.id ∧
      sphereEq (Sphere.new 0 (fun _ => 0)).1 (Sphere.new 1 (Sphere.new 0 (fun _ => 0)).2).1 := by
  constructor
  · rfl
  · exact ⟨rfl, matrixEq_refl _⟩

/-- C6 amended: identity tokens are thread-local, not process-global: on one
thread, the k-th construction receives id `start + k`, so as long as a thread
performs at most `2^32` constructions its spheres carry strictly increasing,
pairwise distinct ids and no two of them are identity-equal. -/
theorem claim_C6_amended_thm (tid : ℕ) (st : CounterState) (k : ℕ)
    (hk : st tid + k ≤ 2 ^ 32) :
    (∀ i, i < k →
      ((spheresFrom tid st k).1.getD i ⟨0, Matrix.identity⟩).id = st tid + i) ∧
      ∀ i j, i < k → j < k → i ≠ j →
        ¬ sphereEq ((spheresFrom tid st k).1.getD i ⟨0, Matrix.identity⟩)
          ((spheresFrom tid st k).1.getD j ⟨0, Matrix.identity⟩) := by
  have hids : ∀ i, i < k →
      ((spheresFrom tid st k).1.getD i ⟨0, Matrix.identity⟩).id = st tid + i := by
    induction k generalizing st with
    | zero => intro i hi; omega
    | succ k ih =>
      intro i hi
      rw [show spheresFrom tid st (k + 1) =
          ((⟨st tid, Matrix.identity⟩ : Sphere) ::
              (spheresFrom tid (Sphere.new tid st).2 k).1,
            (spheresFrom tid (Sphere.new tid st).2 k).2) from rfl]
      cases i with
      | zero => simp
      | succ i' =>
        have hlt : i' < k := Nat.lt_of_succ_lt_succ hi
        have hst' : (Sphere.new tid st).2 tid = st tid + 1 := by
          show (if tid = tid then (st tid + 1) % 2 ^ 32 else st tid) = st tid + 1
          rw [if_pos rfl, Nat.mod_eq_of_lt (by omega)]
        have := ih (Sphere.new tid st).2 (by rw [hst']; omega) i' hlt
        rw [show ((⟨st tid, Matrix.identity⟩ : Sphere) ::
              (spheresFrom tid (Sphere.new tid st).2 k).1,
            (spheresFrom tid (Sphere.new tid st).2 k).2).1.getD (i' + 1)
              (⟨0, Matrix.identity⟩ : Sphere)
            = (spheresFrom tid (Sphere.new tid st).2 k).1.getD i'
              (⟨0, Matrix.identity⟩ : Sphere) from rfl, this, hst']
        omega
  refine ⟨hids, ?_⟩
  intro i j hi hj hne heq
  have h1 := hids i hi
  have h2 := hids j hj
  have := heq.1
  rw [h1, h2] at this
  omega

/-- Witness for the amended C6 at a concrete input. -/
theorem claim_C6_amended_witness :
    ((fun _ => 0 : CounterState) 0 + 2 ≤ 2 ^ 32) ∧
      ((∀ i, i < 2 →
          ((spheresFrom 0 (fun _ => 0) 2).1.getD i ⟨0, Matrix.identity⟩).id =
            (fun _ => 0 : CounterState) 0 + i) ∧
        ∀ i j, i < 2 → j < 2 → i ≠ j →
          ¬ sphereEq ((spheresFrom 0 (fun _ => 0) 2).1.getD i ⟨0, Matrix.identity⟩)
            ((spheresFrom 0 (fun _ => 0) 2).1.getD j ⟨0, Matrix.identity⟩)) :=
  ⟨by norm_num, claim_C6_amended_thm 0 (fun _ => 0) 2 (by norm_num)⟩

end RayTracer

namespace RayTracer

lemma matrix4_cases (M : Matrix) (hr : M.rows = 4) (hc : M.cols = 4)
    (hlen : M.data.length = 16) :
    ∃ a b c d e f g h i j k l m n o p : ℝ, M = Matrix.new4x4 a b c d e f g h i j k l m n o p := by
  rcases M with ⟨rows, cols, data⟩
  simp only at hr hc hlen
  subst hr
  subst hc
  rcases data with _ | ⟨x0, _ | ⟨x1, _ | ⟨x2, _ | ⟨x3, _ | ⟨x4, _ | ⟨x5, _ | ⟨x6, _ | ⟨x7, _ | ⟨x8, _ | ⟨x9, _ | ⟨x10, _ | ⟨x11, _ | ⟨x12, _ | ⟨x13, _ | ⟨x14, _ | ⟨x15, _ | ⟨x16, rest⟩⟩⟩⟩⟩⟩⟩⟩⟩⟩⟩⟩⟩⟩⟩⟩⟩ <;>
    simp only [List.length_cons, List.length_nil] at hlen <;>
    first
      | omega
      | exact ⟨x0, x1, x2, x3, x4, x5, x6, x7, x8, x9, x10, x11, x12, x13, x14, x15, rfl⟩

lemma adj4_00 (a b c d e f g h i j k l m n o p : ℝ) :
    a * ((f * (k * p - l * o) - g * (j * p - l * n) + h * (j * o - k * n))) + b * (-(e * (k * p - l * o) - g * (i * p - l * m) + h * (i * o - k * m))) + c * ((e * (j * p - l * n) - f * (i * p - l * m) + h * (i * n - j * m))) + d * (-(e * (j * o - k * n) - f * (i * o - k * m) + g * (i * n - j * m))) = (Matrix.new4x4 a b c d e f g h i j k l m n o p).determinant := by rw [det4_new4x4]; ring

lemma adj4_01 (a b c d e f g h i j k l m n o p : ℝ) :
    a * (-(b * (k * p - l * o) - c * (j * p - l * n) + d * (j * o - k * n))) + b * ((a * (k * p - l * o) - c * (i * p - l * m) + d * (i * o - k * m))) + c * (-(a * (j * p - l * n) - b * (i * p - l * m) + d * (i * n - j * m))) + d * ((a * (j * o - k * n) - b * (i * o - k * m) + c * (i * n - j * m))) = 0 := by ring

lemma adj4_02 (a b c d e f g h i j k l m n o p : ℝ) :
    a * ((b * (g * p - h * o) - c * (f * p - h * n) + d * (f * o - g * n))) + b * (-(a * (g * p - h * o) - c * (e * p - h * m) + d * (e * o - g * m))) + c * ((a * (f * p - h * n) - b * (e * p - h * m) + d * (e * n - f * m))) + d * (-(a * (f * o - g * n) - b * (e * o - g * m) + c * (e * n - f * m))) = 0 := by ring

lemma adj4_03 (a b c d e f g h i j k l m n o p : ℝ) :
    a * (-(b * (g * l - h * k) - c * (f * l - h * j) + d * (f * k - g * j))) + b * ((a * (g * l - h * k) - c * (e * l - h * i) + d * (e * k - g * i))) + c * (-(a * (f * l - h * j) - b * (e * l - h * i) + d * (e * j - f * i))) + d * ((a * (f * k - g * j) - b * (e * k - g * i) + c * (e * j - f * i))) = 0 := by ring

lemma adj4_10 (a b c d e f g h i j k l m n o p : ℝ) :
    e * ((f * (k * p - l * o) - g * (j * p - l * n) + h * (j * o - k * n))) + f * (-(e * (k * p - l * o) - g * (i * p - l * m) + h * (i * o - k * m))) + g * ((e * (j * p - l * n) - f * (i * p - l * m) + h * (i * n - j * m))) + h * (-(e * (j * o - k * n) - f * (i * o - k * m) + g * (i * n - j * m))) = 0 := by ring

lemma adj4_11 (a b c d e f g h i j k l m n o p : ℝ) :
    e * (-(b * (k * p - l * o) - c * (j * p - l * n) + d * (j * o - k * n))) + f * ((a * (k * p - l * o) - c * (i * p - l * m) + d * (i * o - k * m))) + g * (-(a * (j * p - l * n) - b * (i * p - l * m) + d * (i * n - j * m))) + h * ((a * (j * o - k * n) - b * (i * o - k * m) + c * (i * n - j * m))) = (Matrix.new4x4 a b c d e f g h i j k l m n o p).determinant := by rw [det4_new4x4]; ring

lemma adj4_12 (a b c d e f g h i j k l m n o p : ℝ) :
    e * ((b * (g * p - h * o) - c * (f * p - h * n) + d * (f * o - g * n))) + f * (-(a * (g * p - h * o) - c * (e * p - h * m) + d * (e * o - g * m))) + g * ((a * (f * p - h * n) - b * (e * p - h * m) + d * (e * n - f * m))) + h * (-(a * (f * o - g * n) - b * (e * o - g * m) + c * (e * n - f * m))) = 0 := by ring

lemma adj4_13 (a b c d e f g h i j k l m n o p : ℝ) :
    e * (-(b * (g * l - h * k) - c * (f * l - h * j) + d * (f * k - g * j))) + f * ((a * (g * l - h * k) - c * (e * l - h * i) + d * (e * k - g * i))) + g * (-(a * (f * l - h * j) - b * (e * l - h * i) + d * (e * j - f * i))) + h * ((a * (f * k - g * j) - b * (e * k - g * i) + c * (e * j - f * i))) = 0 := by ring

lemma adj4_20 (a b c d e f g h i j k l m n o p : ℝ) :
    i * ((f * (k * p - l * o) - g * (j * p - l * n) + h * (j * o - k * n))) + j * (-(e * (k * p - l * o) - g * (i * p - l * m) + h * (i * o - k * m))) + k * ((e * (j * p - l * n) - f * (i * p - l * m) + h * (i * n - j * m))) + l * (-(e * (j * o - k * n) - f * (i * o - k * m) + g * (i * n - j * m))) = 0 := by ring

lemma adj4_21 (a b c d e f g h i j k l m n o p : ℝ) :
    i * (-(b * (k * p - l * o) - c * (j * p - l * n) + d * (j * o - k * n))) + j * ((a * (k * p - l * o) - c * (i * p - l * m) + d * (i * o - k * m))) + k * (-(a * (j * p - l * n) - b * (i * p - l * m) + d * (i * n - j * m))) + l * ((a * (j * o - k * n) - b * (i * o - k * m) + c * (i * n - j * m))) = 0 := by ring

lemma adj4_22 (a b c d e f g h i j k l m n o p : ℝ) :
    i * ((b * (g * p - h * o) - c * (f * p - h * n) + d * (f * o - g * n))) + j * (-(a * (g * p - h * o) - c * (e * p - h * m) + d * (e * o - g * m))) + k * ((a * (f * p - h * n) - b * (e * p - h * m) + d * (e * n - f * m))) + l * (-(a * (f * o - g * n) - b * (e * o - g * m) + c * (e * n - f * m))) = (Matrix.new4x4 a b c d e f g h i j k l m n o p).determinant := by rw [det4_new4x4]; ring

lemma adj4_23 (a b c d e f g h i j k l m n o p : ℝ) :
    i * (-(b * (g * l - h * k) - c * (f * l - h * j) + d * (f * k - g * j))) + j * ((a * (g * l - h * k) - c * (e * l - h * i) + d * (e * k - g * i))) + k * (-(a * (f * l - h * j) - b * (e * l - h * i) + d * (e * j - f * i))) + l * ((a * (f * k - g * j) - b * (e * k - g * i) + c * (e * j - f * i))) = 0 := by ring

lemma adj4_30 (a b c d e f g h i j k l m n o p : ℝ) :
    m * ((f * (k * p - l * o) - g * (j * p - l * n) + h * (j * o - k * n))) + n * (-(e * (k * p - l * o) - g * (i * p - l * m) + h * (i * o - k * m))) + o * ((e * (j * p - l * n) - f * (i * p - l * m) + h * (i * n - j * m))) + p * (-(e * (j * o - k * n) - f * (i * o - k * m) + g * (i * n - j * m))) = 0 := by ring

lemma adj4_31 (a b c d e f g h i j k l m n o p : ℝ) :
    m * (-(b * (k * p - l * o) - c * (j * p - l * n) + d * (j * o - k * n))) + n * ((a * (k * p - l * o) - c * (i * p - l * m) + d * (i * o - k * m))) + o * (-(a * (j * p - l * n) - b * (i * p - l * m) + d * (i * n - j * m))) + p * ((a * (j * o - k * n) - b * (i * o - k * m) + c * (i * n - j * m))) = 0 := by ring

lemma adj4_32 (a b c d e f g h i j k l m n o p : ℝ) :
    m * ((b * (g * p - h * o) - c * (f * p - h * n) + d * (f * o - g * n))) + n * (-(a * (g * p - h * o) - c * (e * p - h * m) + d * (e * o - g * m))) + o * ((a * (f * p - h * n) - b * (e * p - h * m) + d * (e * n - f * m))) + p * (-(a * (f * o - g * n) - b * (e * o - g * m) + c * (e * n - f * m))) = 0 := by ring

lemma adj4_33 (a b c d e f g h i j k l m n o p : ℝ) :
    m * (-(b * (g * l - h * k) - c * (f * l - h * j) + d * (f * k - g * j))) + n * ((a * (g * l - h * k) - c * (e * l - h * i) + d * (e * k - g * i))) + o * (-(a * (f * l - h * j) - b * (e * l - h * i) + d * (e * j - f * i))) + p * ((a * (f * k - g * j) - b * (e * k - g * i) + c * (e * j - f * i))) = (Matrix.new4x4 a b c d e f g h i j k l m n o p).determinant := by rw [det4_new4x4]; ring

lemma mulTuple_zero (M : Matrix) : M.mulTuple ⟨0, 0, 0, 0⟩ = ⟨0, 0, 0, 0⟩ := by
  simp [Matrix.mulTuple, Tuple.dot]

lemma dot_self_pos {v : Tuple} (hv : v ≠ ⟨0, 0, 0, 0⟩) : 0 < Tuple.dot v v :=
  sum_sq_pos_of_ne_zero hv


lemma entry4_00 (a b c d e f g h i j k l m n o p : ℝ) : (Matrix.new4x4 a b c d e f g h i j k l m n o p).entry 0 0 = a := rfl

lemma entry4_01 (a b c d e f g h i j k l m n o p : ℝ) : (Matrix.new4x4 a b c d e f g h i j k l m n o p).entry 0 1 = b := rfl

lemma entry4_02 (a b c d e f g h i j k l m n o p : ℝ) : (Matrix.new4x4 a b c d e f g h i j k l m n o p).entry 0 2 = c := rfl

lemma entry4_03 (a b c d e f g h i j k l m n o p : ℝ) : (Matrix.new4x4 a b c d e f g h i j k l m n o p).entry 0 3 = d := rfl

lemma entry4_10 (a b c d e f g h i j k l m n o p : ℝ) : (Matrix.new4x4 a b c d e f g h i j k l m n o p).entry 1 0 = e := rfl

lemma entry4_11 (a b c d e f g h i j k l m n o p : ℝ) : (Matrix.new4x4 a b c d e f g h i j k l m n o p).entry 1 1 = f := rfl

lemma entry4_12 (a b c d e f g h i j k l m n o p : ℝ) : (Matrix.new4x4 a b c d e f g h i j k l m n o p).entry 1 2 = g := rfl

lemma entry4_13 (a b c d e f g h i j k l m n o p : ℝ) : (Matrix.new4x4 a b c d e f g h i j k l m n o p).entry 1 3 = h := rfl

lemma entry4_20 (a b c d e f g h i j k l m n o p : ℝ) : (Matrix.new4x4 a b c d e f g h i j k l m n o p).entry 2 0 = i := rfl

lemma entry4_21 (a b c d e f g h i j k l m n o p : ℝ) : (Matrix.new4x4 a b c d e f g h i j k l m n o p).entry 2 1 = j := rfl

lemma entry4_22 (a b c d e f g h i j k l m n o p : ℝ) : (Matrix.new4x4 a b c d e f g h i j k l m n o p).entry 2 2 = k := rfl

lemma entry4_23 (a b c d e f g h i j k l m n o p : ℝ) : (Matrix.new4x4 a b c d e f g h i j k l m n o p).entry 2 3 = l := rfl

lemma entry4_30 (a b c d e f g h i j k l m n o p : ℝ) : (Matrix.new4x4 a b c d e f g h i j k l m n o p).entry 3 0 = m := rfl

lemma entry4_31 (a b c d e f g h i j k l m n o p : ℝ) : (Matrix.new4x4 a b c d e f g h i j k l m n o p).entry 3 1 = n := rfl

lemma entry4_32 (a b c d e f g h i j k l m n o p : ℝ) : (Matrix.new4x4 a b c d e f g h i j k l m n o p).entry 3 2 = o := rfl

lemma entry4_33 (a b c d e f g h i j k l m n o p : ℝ) : (Matrix.new4x4 a b c d e f g h i j k l m n o p).entry 3 3 = p := rfl

set_option maxHeartbeats 1200000 in
lemma mul_inv_action (a b c d e f g h i j k l m n o p : ℝ) (inv : Matrix)
    (hdet : (Matrix.new4x4 a b c d e f g h i j k l m n o p).determinant ≠ 0)
    (hent : ∀ u, u < 4 → ∀ w, w < 4 → inv.entry w u =
      (Matrix.new4x4 a b c d e f g h i j k l m n o p).cofactor u w / (Matrix.new4x4 a b c d e f g h i j k l m n o p).determinant)
    (t : Tuple) :
    (Matrix.new4x4 a b c d e f g h i j k l m n o p).mulTuple (inv.mulTuple t) = t := by
  have hDinv : (Matrix.new4x4 a b c d e f g h i j k l m n o p).determinant * ((Matrix.new4x4 a b c d e f g h i j k l m n o p).determinant)⁻¹ = 1 :=
    mul_inv_cancel₀ hdet
  rcases t with ⟨X, Y, Z, W⟩
  have e00 := hent 0 (by norm_num) 0 (by norm_num)
  have e01 := hent 0 (by norm_num) 1 (by norm_num)
  have e02 := hent 0 (by norm_num) 2 (by norm_num)
  have e03 := hent 0 (by norm_num) 3 (by norm_num)
  have e10 := hent 1 (by norm_num) 0 (by norm_num)
  have e11 := hent 1 (by norm_num) 1 (by norm_num)
  have e12 := hent 1 (by norm_num) 2 (by norm_num)
  have e13 := hent 1 (by norm_num) 3 (by norm_num)
  have e20 := hent 2 (by norm_num) 0 (by norm_num)
  have e21 := hent 2 (by norm_num) 1 (by norm_num)
  have e22 := hent 2 (by norm_num) 2 (by norm_num)
  have e23 := hent 2 (by norm_num) 3 (by norm_num)
  have e30 := hent 3 (by norm_num) 0 (by norm_num)
  have e31 := hent 3 (by norm_num) 1 (by norm_num)
  have e32 := hent 3 (by norm_num) 2 (by norm_num)
  have e33 := hent 3 (by norm_num) 3 (by norm_num)
  simp only [Matrix.mulTuple, Matrix.row, Tuple.dot, Tuple.raw]
  rw [e00, e01, e02, e03, e10, e11, e12, e13, e20, e21, e22, e23, e30, e31, e32, e33]
  simp only [cof4_00, cof4_01, cof4_02, cof4_03, cof4_10, cof4_11, cof4_12, cof4_13, cof4_20, cof4_21, cof4_22, cof4_23, cof4_30, cof4_31, cof4_32, cof4_33]
  simp only [entry4_00, entry4_01, entry4_02, entry4_03, entry4_10, entry4_11, entry4_12, entry4_13, entry4_20, entry4_21, entry4_22, entry4_23, entry4_30, entry4_31, entry4_32, entry4_33]
  simp only [Tuple.mk.injEq]
  refine ⟨?_, ?_, ?_, ?_⟩
  · linear_combination (X / (Matrix.new4x4 a b c d e f g h i j k l m n o p).determinant) * adj4_00 a b c d e f g h i j k l m n o p + (Y / (Matrix.new4x4 a b c d e f g h i j k l m n o p).determinant) * adj4_01 a b c d e f g h i j k l m n o p + (Z / (Matrix.new4x4 a b c d e f g h i j k l m n o p).determinant) * adj4_02 a b c d e f g h i j k l m n o p + (W / (Matrix.new4x4 a b c d e f g h i j k l m n o p).determinant) * adj4_03 a b c d e f g h i j k l m n o p + X * hDinv
  · linear_combination (X / (Matrix.new4x4 a b c d e f g h i j k l m n o p).determinant) * adj4_10 a b c d e f g h i j k l m n o p + (Y / (Matrix.new4x4 a b c d e f g h i j k l m n o p).determinant) * adj4_11 a b c d e f g h i j k l m n o p + (Z / (Matrix.new4x4 a b c d e f g h i j k l m n o p).determinant) * adj4_12 a b c d e f g h i j k l m n o p + (W / (Matrix.new4x4 a b c d e f g h i j k l m n o p).determinant) * adj4_13 a b c d e f g h i j k l m n o p + Y * hDinv
  · linear_combination (X / (Matrix.new4x4 a b c d e f g h i j k l m n o p).determinant) * adj4_20 a b c d e f g h i j k l m n o p + (Y / (Matrix.new4x4 a b c d e f g h i j k l m n o p).determinant) * adj4_21 a b c d e f g h i j k l m n o p + (Z / (Matrix.new4x4 a b c d e f g h i j k l m n o p).determinant) * adj4_22 a b c d e f g h i j k l m n o p + (W / (Matrix.new4x4 a b c d e f g h i j k l m n o p).determinant) * adj4_23 a b c d e f g h i j k l m n o p + Z * hDinv
  · linear_combination (X / (Matrix.new4x4 a b c d e f g h i j k l m n o p).determinant) * adj4_30 a b c d e f g h i j k l m n o p + (Y / (Matrix.new4x4 a b c d e f g h i j k l m n o p).determinant) * adj4_31 a b c d e f g h i j k l m n o p + (Z / (Matrix.new4x4 a b c d e f g h i j k l m n o p).determinant) * adj4_32 a b c d e f g h i j k l m n o p + (W / (Matrix.new4x4 a b c d e f g h i j k l m n o p).determinant) * adj4_33 a b c d e f g h i j k l m n o p + W * hDinv

end RayTracer

namespace RayTracer

lemma point_eq_raw (x y z : ℝ) : Tuple.point x y z = Tuple.raw x y z 1 := rfl

lemma vector_eq_raw (x y z : ℝ) : Tuple.vector x y z = Tuple.raw x y z 0 := rfl

lemma sqrt_four : Real.sqrt 4 = 2 := by
  rw [show (4:ℝ) = 2 ^ 2 by norm_num, Real.sqrt_sq]
  norm_num

lemma intersect_outcome_of_invertible (s : Sphere) (r : Ray)
    (hrows : s.transform.rows = 4) (hcols : s.transform.cols = 4)
    (hlen : s.transform.data.length = 16)
    (hdet : s.transform.determinant ≠ 0)
    (hdir : r.direction ≠ ⟨0, 0, 0, 0⟩)
    (inv : Matrix) (hinv : s.transform.invert = some inv) :
    intersectOutcome s r inv := by
  obtain ⟨N, hN, hNr, hNc, hNlen, hNent⟩ :=
    invert_spec s.transform 4 hrows hcols (by rw [hlen]) hdet
  have hinvN : inv = N := by
    rw [hinv] at hN
    exact Option.some.inj hN
  subst hinvN
  obtain ⟨a, b, c, d, e, f, g, h, i, j, k, l, m, n, o, p, hM⟩ :=
    matrix4_cases s.transform hrows hcols hlen
  have haction : ∀ t, s.transform.mulTuple (inv.mulTuple t) = t := by
    intro t
    rw [hM]
    refine mul_inv_action a b c d e f g h i j k l m n o p inv ?_ ?_ t
    · rw [← hM]; exact hdet
    · intro u hu w hw
      have := hNent u hu w hw
      rw [hM] at this
      exact this
  have hd' : inv.mulTuple r.direction ≠ ⟨0, 0, 0, 0⟩ := by
    intro h0
    apply hdir
    have hact := haction r.direction
    rw [h0, mulTuple_zero] at hact
    exact hact.symm
  have ha : 0 < Tuple.dot (inv.mulTuple r.direction) (inv.mulTuple r.direction) :=
    dot_self_pos hd'
  have hint : s.intersect r = some (
      let ray := r.transform inv
      let sphere_to_ray := ray.origin.sub (Tuple.point 0 0 0)
      let A := Tuple.dot ray.direction ray.direction
      let B := 2 * Tuple.dot ray.direction sphere_to_ray
      let C := Tuple.dot sphere_to_ray sphere_to_ray - 1
      let disc := B * B - 4 * A * C
      if disc < 0 then []
      else [Intersection.new ((-B - Real.sqrt disc) / (2 * A)) s,
        Intersection.new ((-B + Real.sqrt disc) / (2 * A)) s]) := by
    unfold Sphere.intersect
    rw [hinv]
    rfl
  have hA : 0 < Tuple.dot (r.transform inv).direction (r.transform inv).direction := ha
  simp only [intersectOutcome]
  refine ⟨?_, ?_, ?_⟩
  · intro hlt
    rw [hint]
    simp only [if_pos hlt]
  · intro hge
    constructor
    · rw [hint]
      simp only [if_neg (not_lt.mpr hge)]
    · have h2a : 0 < 2 * Tuple.dot (r.transform inv).direction (r.transform inv).direction := by
        linarith
      refine (div_le_div_iff_of_pos_right h2a).mpr ?_
      have hsq := Real.sqrt_nonneg
        (2 * Tuple.dot (r.transform inv).direction
            ((r.transform inv).origin.sub (Tuple.point 0 0 0)) *
          (2 * Tuple.dot (r.transform inv).direction
            ((r.transform inv).origin.sub (Tuple.point 0 0 0))) -
        4 * Tuple.dot (r.transform inv).direction (r.transform inv).direction *
          (Tuple.dot ((r.transform inv).origin.sub (Tuple.point 0 0 0))
            ((r.transform inv).origin.sub (Tuple.point 0 0 0)) - 1))
      linarith
  · intro heq
    rw [heq, Real.sqrt_zero]
    norm_num

end RayTracer

namespace RayTracer

lemma invert_fold_unroll (M : Matrix) (hr : M.rows = 4) (hc : M.cols = 4) :
    (List.range M.rows).foldl
      (fun ret r => (List.range M.cols).foldl
        (fun ret c => ret.set_cell c r (M.cofactor r c / M.determinant)) ret) M
      = ((((((((((((((((M).set_cell 0 0 (M.cofactor 0 0 / M.determinant)).set_cell 1 0 (M.cofactor 0 1 / M.determinant)).set_cell 2 0 (M.cofactor 0 2 / M.determinant)).set_cell 3 0 (M.cofactor 0 3 / M.determinant)).set_cell 0 1 (M.cofactor 1 0 / M.determinant)).set_cell 1 1 (M.cofactor 1 1 / M.determinant)).set_cell 2 1 (M.cofactor 1 2 / M.determinant)).set_cell 3 1 (M.cofactor 1 3 / M.determinant)).set_cell 0 2 (M.cofactor 2 0 / M.determinant)).set_cell 1 2 (M.cofactor 2 1 / M.determinant)).set_cell 2 2 (M.cofactor 2 2 / M.determinant)).set_cell 3 2 (M.cofactor 2 3 / M.determinant)).set_cell 0 3 (M.cofactor 3 0 / M.determinant)).set_cell 1 3 (M.cofactor 3 1 / M.determinant)).set_cell 2 3 (M.cofactor 3 2 / M.determinant)).set_cell 3 3 (M.cofactor 3 3 / M.determinant) := by
  rw [hr, hc]
  rfl

lemma invert_new4x4 (a b c d e f g h i j k l m n o p : ℝ) (hdet : (Matrix.new4x4 a b c d e f g h i j k l m n o p).determinant ≠ 0) :
    (Matrix.new4x4 a b c d e f g h i j k l m n o p).invert = some
      ⟨4, 4, [(Matrix.new4x4 a b c d e f g h i j k l m n o p).cofactor 0 0 / (Matrix.new4x4 a b c d e f g h i j k l m n o p).determinant,
        (Matrix.new4x4 a b c d e f g h i j k l m n o p).cofactor 1 0 / (Matrix.new4x4 a b c d e f g h i j k l m n o p).determinant,
        (Matrix.new4x4 a b c d e f g h i j k l m n o p).cofactor 2 0 / (Matrix.new4x4 a b c d e f g h i j k l m n o p).determinant,
        (Matrix.new4x4 a b c d e f g h i j k l m n o p).cofactor 3 0 / (Matrix.new4x4 a b c d e f g h i j k l m n o p).determinant,
        (Matrix.new4x4 a b c d e f g h i j k l m n o p).cofactor 0 1 / (Matrix.new4x4 a b c d e f g h i j k l m n o p).determinant,
        (Matrix.new4x4 a b c d e f g h i j k l m n o p).cofactor 1 1 / (Matrix.new4x4 a b c d e f g h i j k l m n o p).determinant,
        (Matrix.new4x4 a b c d e f g h i j k l m n o p).cofactor 2 1 / (Matrix.new4x4 a b c d e f g h i j k l m n o p).determinant,
        (Matrix.new4x4 a b c d e f g h i j k l m n o p).cofactor 3 1 / (Matrix.new4x4 a b c d e f g h i j k l m n o p).determinant,
        (Matrix.new4x4 a b c d e f g h i j k l m n o p).cofactor 0 2 / (Matrix.new4x4 a b c d e f g h i j k l m n o p).determinant,
        (Matrix.new4x4 a b c d e f g h i j k l m n o p).cofactor 1 2 / (Matrix.new4x4 a b c d e f g h i j k l m n o p).determinant,
        (Matrix.new4x4 a b c d e f g h i j k l m n o p).cofactor 2 2 / (Matrix.new4x4 a b c d e f g h i j k l m n o p).determinant,
        (Matrix.new4x4 a b c d e f g h i j k l m n o p).cofactor 3 2 / (Matrix.new4x4 a b c d e f g h i j k l m n o p).determinant,
        (Matrix.new4x4 a b c d e f g h i j k l m n o p).cofactor 0 3 / (Matrix.new4x4 a b c d e f g h i j k l m n o p).determinant,
        (Matrix.new4x4 a b c d e f g h i j k l m n o p).cofactor 1 3 / (Matrix.new4x4 a b c d e f g h i j k l m n o p).determinant,
        (Matrix.new4x4 a b c d e f g h i j k l m n o p).cofactor 2 3 / (Matrix.new4x4 a b c d e f g h i j k l m n o p).determinant,
        (Matrix.new4x4 a b c d e f g h i j k l m n o p).cofactor 3 3 / (Matrix.new4x4 a b c d e f g h i j k l m n o p).determinant]⟩ := by
  rw [invert_eq_ite, if_neg hdet, invert_fold_unroll (Matrix.new4x4 a b c d e f g h i j k l m n o p) rfl rfl]
  simp only [Matrix.new4x4, set_cell_mk]
  norm_num [List.set]

lemma invert_identity : Matrix.identity.invert = some Matrix.identity := by
  have hdet : (Matrix.new4x4 1 0 0 0 0 1 0 0 0 0 1 0 0 0 0 1).determinant ≠ 0 := by
    rw [det4_new4x4]
    norm_num
  rw [identity_new4x4, invert_new4x4 1 0 0 0 0 1 0 0 0 0 1 0 0 0 0 1 hdet]
  simp only [cof4_00, cof4_01, cof4_02, cof4_03, cof4_10, cof4_11, cof4_12, cof4_13, cof4_20, cof4_21, cof4_22, cof4_23, cof4_30, cof4_31, cof4_32, cof4_33, det4_new4x4]
  norm_num [Matrix.identity, Matrix.new4x4]

lemma invert_scaling2 : (Matrix.scaling 2 2 2).invert =
    some (Matrix.new4x4 (1/2) 0 0 0 0 (1/2) 0 0 0 0 (1/2) 0 0 0 0 1) := by
  have hdet : (Matrix.new4x4 2 0 0 0 0 2 0 0 0 0 2 0 0 0 0 1).determinant ≠ 0 := by
    rw [det4_new4x4]
    norm_num
  rw [scaling_new4x4, invert_new4x4 2 0 0 0 0 2 0 0 0 0 2 0 0 0 0 1 hdet]
  simp only [cof4_00, cof4_01, cof4_02, cof4_03, cof4_10, cof4_11, cof4_12, cof4_13, cof4_20, cof4_21, cof4_22, cof4_23, cof4_30, cof4_31, cof4_32, cof4_33, det4_new4x4]
  norm_num [Matrix.new4x4]

end RayTracer

namespace RayTracer

lemma mulTuple_new4x4_mk (a b c d e f g h i j k l m n o p X Y Z W : ℝ) :
    (Matrix.new4x4 a b c d e f g h i j k l m n o p).mulTuple ⟨X, Y, Z, W⟩ =
      ⟨(X * a + Y * b + Z * c + W * d), (X * e + Y * f + Z * g + W * h), (X * i + Y * j + Z * k + W * l), (X * m + Y * n + Z * o + W * p)⟩ := rfl

lemma identity_det_ne : Matrix.identity.determinant ≠ 0 := by
  rw [identity_new4x4, det4_new4x4]
  norm_num

lemma scaling2_det_ne : (Matrix.scaling 2 2 2).determinant ≠ 0 := by
  rw [scaling_new4x4, det4_new4x4]
  norm_num

lemma dir001_ne : Tuple.vector 0 0 1 ≠ (⟨0, 0, 0, 0⟩ : Tuple) := by
  intro hq
  have := congrArg Tuple.z hq
  norm_num [Tuple.vector] at this

lemma intersect_inst1 :
    (Sphere.mk 0 Matrix.identity).intersect ⟨Tuple.point 0 0 (-5), Tuple.vector 0 0 1⟩ =
      some [Intersection.new 4 (Sphere.mk 0 Matrix.identity),
        Intersection.new 6 (Sphere.mk 0 Matrix.identity)] := by
  have hout := intersect_outcome_of_invertible (Sphere.mk 0 Matrix.identity)
    ⟨Tuple.point 0 0 (-5), Tuple.vector 0 0 1⟩ rfl rfl rfl identity_det_ne dir001_ne
    Matrix.identity invert_identity
  simp only [intersectOutcome, Ray.transform, identity_new4x4, point_eq_raw, vector_eq_raw,
    mulTuple_new4x4, mulTuple_new4x4_mk, Tuple.sub, Tuple.dot, Tuple.raw] at hout
  norm_num [sqrt_four] at hout
  exact hout

lemma intersect_inst2 :
    (Sphere.mk 0 Matrix.identity).intersect ⟨Tuple.point 0 0 0, Tuple.vector 0 0 1⟩ =
      some [Intersection.new (-1) (Sphere.mk 0 Matrix.identity),
        Intersection.new 1 (Sphere.mk 0 Matrix.identity)] := by
  have hout := intersect_outcome_of_invertible (Sphere.mk 0 Matrix.identity)
    ⟨Tuple.point 0 0 0, Tuple.vector 0 0 1⟩ rfl rfl rfl identity_det_ne dir001_ne
    Matrix.identity invert_identity
  simp only [intersectOutcome, Ray.transform, identity_new4x4, point_eq_raw, vector_eq_raw,
    mulTuple_new4x4, mulTuple_new4x4_mk, Tuple.sub, Tuple.dot, Tuple.raw] at hout
  norm_num [sqrt_four] at hout
  exact hout

lemma intersect_inst3 :
    (Sphere.mk 0 Matrix.identity).intersect ⟨Tuple.point 0 2 (-5), Tuple.vector 0 0 1⟩ =
      some [] := by
  have hout := intersect_outcome_of_invertible (Sphere.mk 0 Matrix.identity)
    ⟨Tuple.point 0 2 (-5), Tuple.vector 0 0 1⟩ rfl rfl rfl identity_det_ne dir001_ne
    Matrix.identity invert_identity
  simp only [intersectOutcome, Ray.transform, identity_new4x4, point_eq_raw, vector_eq_raw,
    mulTuple_new4x4, mulTuple_new4x4_mk, Tuple.sub, Tuple.dot, Tuple.raw] at hout
  norm_num at hout
  exact hout

lemma intersect_inst4 :
    (Sphere.mk 0 (Matrix.scaling 2 2 2)).intersect ⟨Tuple.point 0 0 (-5), Tuple.vector 0 0 1⟩ =
      some [Intersection.new 3 (Sphere.mk 0 (Matrix.scaling 2 2 2)),
        Intersection.new 7 (Sphere.mk 0 (Matrix.scaling 2 2 2))] := by
  have hout := intersect_outcome_of_invertible (Sphere.mk 0 (Matrix.scaling 2 2 2))
    ⟨Tuple.point 0 0 (-5), Tuple.vector 0 0 1⟩ rfl rfl rfl scaling2_det_ne dir001_ne
    (Matrix.new4x4 (1/2) 0 0 0 0 (1/2) 0 0 0 0 (1/2) 0 0 0 0 1) invert_scaling2
  simp only [intersectOutcome, Ray.transform, point_eq_raw, vector_eq_raw,
    mulTuple_new4x4, mulTuple_new4x4_mk, Tuple.sub, Tuple.dot, Tuple.raw] at hout
  norm_num [Real.sqrt_one] at hout
  exact hout

end RayTracer

namespace RayTracer

/-- C1: for every sphere whose (well-formed 4x4) transform is invertible and
every ray with nonzero direction, `intersect` returns the empty collection
when the discriminant computed on the inverse-transformed ray is negative and
otherwise exactly two intersections in formula order, each referencing the
sphere, with the first root at most the second and a tangent ray yielding two
equal roots; moreover the four book examples evaluate as specified: a default
sphere gives t = 4 and 6 from `point(0,0,-5)` toward `vector(0,0,1)`, t = -1
and 1 from the origin, no intersections from `point(0,2,-5)`, and the sphere
scaled by `scaling(2,2,2)` gives t = 3 and 7 on the first ray. -/
theorem claim_C1 (s : Sphere) (r : Ray)
    (hrows : s.transform.rows = 4) (hcols : s.transform.cols = 4)
    (hlen : s.transform.data.length = 16)
    (hdet : s.transform.determinant ≠ 0)
    (hdir : r.direction ≠ (⟨0, 0, 0, 0⟩ : Tuple)) :
    (∀ inv, s.transform.invert = some inv → intersectOutcome s r inv) ∧
      (Sphere.mk 0 Matrix.identity).intersect ⟨Tuple.point 0 0 (-5), Tuple.vector 0 0 1⟩ =
        some [Intersection.new 4 (Sphere.mk 0 Matrix.identity),
          Intersection.new 6 (Sphere.mk 0 Matrix.identity)] ∧
      (Sphere.mk 0 Matrix.identity).intersect ⟨Tuple.point 0 0 0, Tuple.vector 0 0 1⟩ =
        some [Intersection.new (-1) (Sphere.mk 0 Matrix.identity),
          Intersection.new 1 (Sphere.mk 0 Matrix.identity)] ∧
      (Sphere.mk 0 Matrix.identity).intersect ⟨Tuple.point 0 2 (-5), Tuple.vector 0 0 1⟩ =
        some [] ∧
      (Sphere.mk 0 (Matrix.scaling 2 2 2)).intersect
          ⟨Tuple.point 0 0 (-5), Tuple.vector 0 0 1⟩ =
        some [Intersection.new 3 (Sphere.mk 0 (Matrix.scaling 2 2 2)),
          Intersection.new 7 (Sphere.mk 0 (Matrix.scaling 2 2 2))] :=
  ⟨fun inv hinv => intersect_outcome_of_invertible s r hrows hcols hlen hdet hdir inv hinv,
    intersect_inst1, intersect_inst2, intersect_inst3, intersect_inst4⟩

/-- Witness for C1 at a concrete input. -/
theorem claim_C1_witness :
    ((Sphere.mk 0 Matrix.identity).transform.rows = 4 ∧
        (Sphere.mk 0 Matrix.identity).transform.cols = 4 ∧
        (Sphere.mk 0 Matrix.identity).transform.data.length = 16 ∧
        (Sphere.mk 0 Matrix.identity).transform.determinant ≠ 0 ∧
        (⟨Tuple.point 0 0 (-5), Tuple.vector 0 0 1⟩ : Ray).direction ≠
          (⟨0, 0, 0, 0⟩ : Tuple)) ∧
      ((∀ inv, (Sphere.mk 0 Matrix.identity).transform.invert = some inv →
          intersectOutcome (Sphere.mk 0 Matrix.identity)
            ⟨Tuple.point 0 0 (-5), Tuple.vector 0 0 1⟩ inv) ∧
        (Sphere.mk 0 Matrix.identity).intersect ⟨Tuple.point 0 0 (-5), Tuple.vector 0 0 1⟩ =
          some [Intersection.new 4 (Sphere.mk 0 Matrix.identity),
            Intersection.new 6 (Sphere.mk 0 Matrix.identity)] ∧
        (Sphere.mk 0 Matrix.identity).intersect ⟨Tuple.point 0 0 0, Tuple.vector 0 0 1⟩ =
          some [Intersection.new (-1) (Sphere.mk 0 Matrix.identity),
            Intersection.new 1 (Sphere.mk 0 Matrix.identity)] ∧
        (Sphere.mk 0 Matrix.identity).intersect ⟨Tuple.point 0 2 (-5), Tuple.vector 0 0 1⟩ =
          some [] ∧
        (Sphere.mk 0 (Matrix.scaling 2 2 2)).intersect
            ⟨Tuple.point 0 0 (-5), Tuple.vector 0 0 1⟩ =
          some [Intersection.new 3 (Sphere.mk 0 (Matrix.scaling 2 2 2)),
            Intersection.new 7 (Sphere.mk 0 (Matrix.scaling 2 2 2))]) :=
  ⟨⟨rfl, rfl, rfl, identity_det_ne, dir001_ne⟩,
    claim_C1 (Sphere.mk 0 Matrix.identity) ⟨Tuple.point 0 0 (-5), Tuple.vector 0 0 1⟩
      rfl rfl rfl identity_det_ne dir001_ne⟩

end RayTracer

namespace RayTracer

/-- C3: each fluent matrix method left-multiplies its affine builder onto the
receiver (for every 4x4 matrix); hence a rotate-then-scale-then-translate
chain applied to a tuple performs the rotation first, then the scaling, then
the translation; and the book example
`identity().rotate_x(pi/2).scale(5,5,5).translate(10,5,7)` applied to
`point(1,0,1)` yields `point(15,0,7)`. -/
theorem claim_C3 (M : Matrix) (hr : M.rows = 4) (hc : M.cols = 4)
    (hlen : M.data.length = 16) (ang sx sy sz tx ty tz : ℝ) (t : Tuple) :
    (M.translate tx ty tz = Matrix.matMul (Matrix.translation tx ty tz) M ∧
      M.scale sx sy sz = Matrix.matMul (Matrix.scaling sx sy sz) M ∧
      M.rotate_x ang = Matrix.matMul (Matrix.rotation_x ang) M ∧
      M.rotate_y ang = Matrix.matMul (Matrix.rotation_y ang) M ∧
      M.rotate_z ang = Matrix.matMul (Matrix.rotation_z ang) M) ∧
    (((M.rotate_x ang).scale sx sy sz).translate tx ty tz).mulTuple t =
      (Matrix.translation tx ty tz).mulTuple
        ((Matrix.scaling sx sy sz).mulTuple
          ((Matrix.rotation_x ang).mulTuple (M.mulTuple t))) ∧
    (((Matrix.identity.rotate_x (Real.pi / 2)).scale 5 5 5).translate 10 5 7).mulTuple
        (Tuple.point 1 0 1) =
      Tuple.point 15 0 7 := by
  obtain ⟨a, b, c, d, e, f, g, h, i, j, k, l, m, n, o, p, hM⟩ := matrix4_cases M hr hc hlen
  subst hM
  refine ⟨⟨rfl, rfl, rfl, rfl, rfl⟩, ?_, ?_⟩
  · rcases t with ⟨X, Y, Z, W⟩
    simp only [Matrix.translate, Matrix.scale, Matrix.rotate_x,
      translation_new4x4, scaling_new4x4, rotation_x_new4x4, matMul_new4x4,
      show (⟨X, Y, Z, W⟩ : Tuple) = Tuple.raw X Y Z W from rfl, mulTuple_new4x4]
    simp only [Tuple.raw, Tuple.mk.injEq]
    refine ⟨by ring, by ring, by ring, by ring⟩
  · simp only [Matrix.translate, Matrix.scale, Matrix.rotate_x, identity_new4x4,
      translation_new4x4, scaling_new4x4, rotation_x_new4x4,
      Real.cos_pi_div_two, Real.sin_pi_div_two, matMul_new4x4,
      show Tuple.point 1 0 1 = Tuple.raw 1 0 1 1 from rfl, mulTuple_new4x4]
    norm_num [Tuple.raw, Tuple.point]

/-- Witness for C3 at a concrete input. -/
theorem claim_C3_witness :
    (Matrix.identity.rows = 4 ∧ Matrix.identity.cols = 4 ∧
        Matrix.identity.data.length = 16) ∧
      ((Matrix.identity.translate 10 5 7 =
          Matrix.matMul (Matrix.translation 10 5 7) Matrix.identity ∧
        Matrix.identity.scale 5 5 5 =
          Matrix.matMul (Matrix.scaling 5 5 5) Matrix.identity ∧
        Matrix.identity.rotate_x 1 = Matrix.matMul (Matrix.rotation_x 1) Matrix.identity ∧
        Matrix.identity.rotate_y 1 = Matrix.matMul (Matrix.rotation_y 1) Matrix.identity ∧
        Matrix.identity.rotate_z 1 = Matrix.matMul (Matrix.rotation_z 1) Matrix.identity) ∧
      (((Matrix.identity.rotate_x 1).scale 5 5 5).translate 10 5 7).mulTuple
          (Tuple.point 1 0 1) =
        (Matrix.translation 10 5 7).mulTuple
          ((Matrix.scaling 5 5 5).mulTuple
            ((Matrix.rotation_x 1).mulTuple (Matrix.identity.mulTuple (Tuple.point 1 0 1)))) ∧
      (((Matrix.identity.rotate_x (Real.pi / 2)).scale 5 5 5).translate 10 5 7).mulTuple
          (Tuple.point 1 0 1) =
        Tuple.point 15 0 7) :=
  ⟨⟨rfl, rfl, rfl⟩,
    claim_C3 Matrix.identity rfl rfl rfl 1 5 5 5 10 5 7 (Tuple.point 1 0 1)⟩

end RayTracer
